import Mathlib

/-!
Verification development for the Hugoland game-state engine
(`src/hooks/useGameState.ts`).

The engine is a catalog of pure `GameState -> GameState` transforms applied
through a serialized mutation dispatcher.  We embed the state record and every
public operation as executable Lean definitions.  JavaScript numbers are
modelled as exact rationals (`ℚ`) and `Math.floor` as the rational floor;
`Date` values are modelled as rational timestamps.  All calls to
`Math.random()` and to the external generator functions (`generateWeapon`,
`generateEnemy`, `getChestRarityWeights`, `calculateResearchCost`,
`initializeAchievements`, ...) are modelled as oracle parameters threaded into
the corresponding operation, since those collaborators live outside the
specified system.
-/

set_option maxHeartbeats 1000000

namespace Hugoland

/-- Modelled from the spec: the `playerStats` record (hp, maxHp, atk, def plus
immutable base reference values).  The full field list follows the default
state constructed in `createInitialGameState`; the `def` field of the source
is written `«def»`. -/
structure PlayerStats where
  hp : ℚ
  maxHp : ℚ
  atk : ℚ
  «def» : ℚ
  baseAtk : ℚ
  baseDef : ℚ
  baseHp : ℚ
  deriving Repr, DecidableEq

/-- Modelled from the spec: Weapon value object with `id` (unique), `level`,
`upgradeCost` (grows x1.5 per level, floored), `sellPrice`, `rarity`, `name`.
(The `types/game` module is not part of the sources; the fields are the ones
the spec lists and the engine reads.) -/
structure Weapon where
  id : String
  name : String
  rarity : String
  level : ℚ
  upgradeCost : ℚ
  sellPrice : ℚ
  deriving Repr, DecidableEq

/-- Modelled from the spec: Armor value object, same shape as `Weapon`. -/
structure Armor where
  id : String
  name : String
  rarity : String
  level : ℚ
  upgradeCost : ℚ
  sellPrice : ℚ
  deriving Repr, DecidableEq

/-- Modelled from the spec: Relic value object, like Weapon/Armor plus a
market `cost` and optional base stat bonuses read by `upgradeRelic`. -/
structure RelicItem where
  id : String
  name : String
  level : ℚ
  upgradeCost : ℚ
  cost : ℚ
  baseAtk : Option ℚ
  baseDef : Option ℚ
  deriving Repr, DecidableEq

/-- Modelled from the spec: enemy value object produced by the external
`generateEnemy`; the engine reads `name`, `hp`, `atk` and `def`. -/
structure Enemy where
  name : String
  hp : ℚ
  atk : ℚ
  «def» : ℚ
  deriving Repr, DecidableEq

/-- The seven adventure-skill kinds of the source catalog. -/
inductive AdventureSkillType where
  | risker
  | lightning_chain
  | skip_card
  | metal_shield
  | truth_lies
  | ramp
  | dodge
  deriving Repr, DecidableEq

/-- Modelled from the spec: immutable adventure-skill definition
`{id, name, description, type}`. -/
structure AdventureSkill where
  id : String
  name : String
  description : String
  «type» : AdventureSkillType
  deriving Repr, DecidableEq

/-- The six per-combat effect flags of `adventureSkills.skillEffects`. -/
structure SkillEffects where
  skipCardUsed : Bool
  metalShieldUsed : Bool
  dodgeUsed : Bool
  truthLiesActive : Bool
  lightningChainActive : Bool
  rampActive : Bool
  deriving Repr, DecidableEq

/-- The `adventureSkills` slice of the game state. -/
structure AdventureSkillsState where
  selectedSkill : Option AdventureSkill
  availableSkills : List AdventureSkill
  showSelectionModal : Bool
  skillEffects : SkillEffects
  deriving Repr, DecidableEq

/-- The `research` slice. -/
structure Research where
  level : ℚ
  totalSpent : ℚ
  availableUpgrades : List String
  deriving Repr, DecidableEq

/-- The `knowledgeStreak` slice. -/
structure KnowledgeStreak where
  current : ℚ
  best : ℚ
  multiplier : ℚ
  deriving Repr, DecidableEq

/-- The `gameMode` slice. -/
structure GameModeState where
  current : String
  speedModeActive : Bool
  survivalLives : ℚ
  maxSurvivalLives : ℚ
  timeAttackScore : ℚ
  timeAttackTimeLeft : ℚ
  bossProgress : ℚ
  deriving Repr, DecidableEq

/-- Per-category accuracy cell of `statistics.accuracyByCategory`. -/
structure CategoryStat where
  correct : ℚ
  total : ℚ
  deriving Repr, DecidableEq

/-- The `statistics` slice; `accuracyByCategory` (a string-keyed object in the
source) is modelled as an association list, `sessionStartTime` as a rational
timestamp. -/
structure Statistics where
  totalQuestionsAnswered : ℚ
  correctAnswers : ℚ
  totalPlayTime : ℚ
  zonesReached : ℚ
  itemsCollected : ℚ
  coinsEarned : ℚ
  gemsEarned : ℚ
  shinyGemsEarned : ℚ
  chestsOpened : ℚ
  accuracyByCategory : List (String × CategoryStat)
  sessionStartTime : ℚ
  totalDeaths : ℚ
  totalVictories : ℚ
  longestStreak : ℚ
  fastestVictory : ℚ
  totalDamageDealt : ℚ
  totalDamageTaken : ℚ
  itemsUpgraded : ℚ
  itemsSold : ℚ
  totalResearchSpent : ℚ
  averageAccuracy : ℚ
  revivals : ℚ

/-- The `cheats` slice. -/
structure CheatSettings where
  infiniteCoins : Bool
  infiniteGems : Bool
  obtainAnyItem : Bool
  deriving Repr, DecidableEq

/-- The `mining` slice. -/
structure MiningState where
  totalGemsMined : ℚ
  totalShinyGemsMined : ℚ
  deriving Repr, DecidableEq

/-- The `yojefMarket` slice; refresh instants as rational timestamps. -/
structure YojefMarket where
  items : List RelicItem
  lastRefresh : ℚ
  nextRefresh : ℚ
  deriving Repr, DecidableEq

/-- Modelled from the spec: opaque player-tag entries produced by the external
`initializePlayerTags`; the engine only carries the list along. -/
structure PlayerTag where
  id : String
  deriving Repr, DecidableEq

/-- Modelled from the spec: opaque achievement entries produced by the external
achievement evaluator; the engine only carries the list along. -/
structure Achievement where
  id : String
  deriving Repr, DecidableEq

/-- A daily-reward record; `claimDailyReward` reads `coins`/`gems` and stamps
`claimed`/`claimDate` into the history copy. -/
structure DailyReward where
  coins : ℚ
  gems : ℚ
  claimed : Bool
  claimDate : Option ℚ
  deriving Repr, DecidableEq

/-- The `dailyRewards` slice. -/
structure DailyRewardsState where
  lastClaimDate : Option ℚ
  currentStreak : ℚ
  maxStreak : ℚ
  availableReward : Option DailyReward
  rewardHistory : List DailyReward
  deriving Repr, DecidableEq

/-- The `progression` slice; `masteryLevels` as an association list. -/
structure Progression where
  level : ℚ
  experience : ℚ
  experienceToNext : ℚ
  skillPoints : ℚ
  unlockedSkills : List String
  prestigeLevel : ℚ
  prestigePoints : ℚ
  masteryLevels : List (String × ℚ)
  deriving Repr, DecidableEq

/-- The `offlineProgress` slice. -/
structure OfflineProgress where
  lastSaveTime : ℚ
  offlineCoins : ℚ
  offlineGems : ℚ
  offlineTime : ℚ
  maxOfflineHours : ℚ
  deriving Repr, DecidableEq

/-- The `gardenOfGrowth` slice. -/
structure GardenOfGrowth where
  isPlanted : Bool
  plantedAt : Option ℚ
  lastWatered : Option ℚ
  waterHoursRemaining : ℚ
  growthCm : ℚ
  totalGrowthBonus : ℚ
  seedCost : ℚ
  waterCost : ℚ
  maxGrowthCm : ℚ
  deriving Repr, DecidableEq

/-- The `settings` slice. -/
structure SettingsState where
  colorblindMode : Bool
  darkMode : Bool
  language : String
  notifications : Bool
  deriving Repr, DecidableEq

/-- A rolled menu skill (the `type` union of the source becomes a string). -/
structure MenuSkill where
  id : String
  name : String
  description : String
  duration : ℚ
  activatedAt : ℚ
  expiresAt : ℚ
  «type» : String
  deriving Repr, DecidableEq

/-- The `skills` (menu-skill timer) slice. -/
structure SkillsState where
  activeMenuSkill : Option MenuSkill
  lastRollTime : Option ℚ
  playTimeThisSession : ℚ
  sessionStartTime : ℚ
  deriving Repr, DecidableEq

/-- Rarity histogram of the collection book. -/
structure RarityStats where
  common : ℚ
  rare : ℚ
  epic : ℚ
  legendary : ℚ
  mythical : ℚ
  deriving Repr, DecidableEq

/-- The `collectionBook` slice; the string-keyed discovery objects of the
source are modelled as lists of discovered names. -/
structure CollectionBook where
  weapons : List String
  armor : List String
  totalWeaponsFound : ℚ
  totalArmorFound : ℚ
  rarityStats : RarityStats
  deriving Repr, DecidableEq

/-- The inventory slice. -/
structure Inventory where
  weapons : List Weapon
  armor : List Armor
  relics : List RelicItem
  currentWeapon : Option Weapon
  currentArmor : Option Armor
  equippedRelics : List RelicItem
  deriving Repr, DecidableEq

/-- The root `GameState` record, field for field after the source. -/
structure GameState where
  coins : ℚ
  gems : ℚ
  shinyGems : ℚ
  zone : ℚ
  playerStats : PlayerStats
  inventory : Inventory
  currentEnemy : Option Enemy
  inCombat : Bool
  combatLog : List String
  research : Research
  isPremium : Bool
  achievements : List Achievement
  collectionBook : CollectionBook
  knowledgeStreak : KnowledgeStreak
  gameMode : GameModeState
  statistics : Statistics
  cheats : CheatSettings
  mining : MiningState
  yojefMarket : YojefMarket
  playerTags : List PlayerTag
  dailyRewards : DailyRewardsState
  progression : Progression
  offlineProgress : OfflineProgress
  gardenOfGrowth : GardenOfGrowth
  settings : SettingsState
  hasUsedRevival : Bool
  skills : SkillsState
  adventureSkills : AdventureSkillsState

/-- The all-false effect-flag record used by the defaults and by the resets in
`skipAdventureSkills` and the victory/defeat branches of `attack`. -/
def emptySkillEffects : SkillEffects :=
  { skipCardUsed := false
    metalShieldUsed := false
    dodgeUsed := false
    truthLiesActive := false
    lightningChainActive := false
    rampActive := false }

/-- The empty adventure-skill state (default and post-combat reset value). -/
def emptyAdventureSkills : AdventureSkillsState :=
  { selectedSkill := none
    availableSkills := []
    showSelectionModal := false
    skillEffects := emptySkillEffects }

/-- `createInitialGameState` of the source.  `now` stands for `Date.now()`;
`achievements0` and `playerTags0` are the outputs of the external
`initializeAchievements()` / `initializePlayerTags()`. -/
def createInitialGameState (now : ℚ) (achievements0 : List Achievement)
    (playerTags0 : List PlayerTag) : GameState :=
  { coins := 100
    gems := 0
    shinyGems := 0
    zone := 1
    playerStats :=
      { hp := 100, maxHp := 100, atk := 20, «def» := 10
        baseAtk := 20, baseDef := 10, baseHp := 100 }
    inventory :=
      { weapons := [], armor := [], relics := []
        currentWeapon := none, currentArmor := none, equippedRelics := [] }
    currentEnemy := none
    inCombat := false
    combatLog := []
    research := { level := 0, totalSpent := 0, availableUpgrades := ["atk", "def", "hp"] }
    isPremium := false
    achievements := achievements0
    collectionBook :=
      { weapons := [], armor := [], totalWeaponsFound := 0, totalArmorFound := 0
        rarityStats := { common := 0, rare := 0, epic := 0, legendary := 0, mythical := 0 } }
    knowledgeStreak := { current := 0, best := 0, multiplier := 1 }
    gameMode :=
      { current := "normal", speedModeActive := false, survivalLives := 3
        maxSurvivalLives := 3, timeAttackScore := 0, timeAttackTimeLeft := 60
        bossProgress := 0 }
    statistics :=
      { totalQuestionsAnswered := 0, correctAnswers := 0, totalPlayTime := 0
        zonesReached := 1, itemsCollected := 0, coinsEarned := 0, gemsEarned := 0
        shinyGemsEarned := 0, chestsOpened := 0, accuracyByCategory := []
        sessionStartTime := now, totalDeaths := 0, totalVictories := 0
        longestStreak := 0, fastestVictory := 0, totalDamageDealt := 0
        totalDamageTaken := 0, itemsUpgraded := 0, itemsSold := 0
        totalResearchSpent := 0, averageAccuracy := 0, revivals := 0 }
    cheats := { infiniteCoins := false, infiniteGems := false, obtainAnyItem := false }
    mining := { totalGemsMined := 0, totalShinyGemsMined := 0 }
    yojefMarket := { items := [], lastRefresh := now, nextRefresh := now + 24 * 60 * 60 * 1000 }
    playerTags := playerTags0
    dailyRewards :=
      { lastClaimDate := none, currentStreak := 0, maxStreak := 0
        availableReward := none, rewardHistory := [] }
    progression :=
      { level := 1, experience := 0, experienceToNext := 100, skillPoints := 0
        unlockedSkills := [], prestigeLevel := 0, prestigePoints := 0
        masteryLevels := [] }
    offlineProgress :=
      { lastSaveTime := now, offlineCoins := 0, offlineGems := 0
        offlineTime := 0, maxOfflineHours := 24 }
    gardenOfGrowth :=
      { isPlanted := false, plantedAt := none, lastWatered := none
        waterHoursRemaining := 0, growthCm := 0, totalGrowthBonus := 0
        seedCost := 1000, waterCost := 500, maxGrowthCm := 100 }
    settings :=
      { colorblindMode := false, darkMode := true, language := "en", notifications := true }
    hasUsedRevival := false
    skills :=
      { activeMenuSkill := none, lastRollTime := none
        playTimeThisSession := 0, sessionStartTime := now }
    adventureSkills := emptyAdventureSkills }

/-! ## Economy and inventory operations -/

/-- `equipWeapon` of the source. -/
def equipWeapon (w : Weapon) (s : GameState) : GameState :=
  { s with inventory := { s.inventory with currentWeapon := some w } }

/-- `equipArmor` of the source. -/
def equipArmor (a : Armor) (s : GameState) : GameState :=
  { s with inventory := { s.inventory with currentArmor := some a } }

/-- `upgradeWeapon` of the source: guarded by item lookup and gem balance;
on success the matching weapons take `level + 1` and
`upgradeCost := floor(upgradeCost * 1.5)`, the equipped reference is kept in
sync, gems drop by the old cost and `itemsUpgraded` increments. -/
def upgradeWeapon (weaponId : String) (s : GameState) : GameState :=
  match s.inventory.weapons.find? (fun w => w.id == weaponId) with
  | none => s
  | some weapon =>
    if s.gems < weapon.upgradeCost then s
    else
      let updatedWeapons := s.inventory.weapons.map (fun w =>
        if w.id == weaponId then
          { w with level := w.level + 1, upgradeCost := (⌊w.upgradeCost * 1.5⌋ : ℚ) }
        else w)
      let updatedCurrentWeapon :=
        match s.inventory.currentWeapon with
        | some cw =>
          if cw.id == weaponId then
            match updatedWeapons.find? (fun w => w.id == weaponId) with
            | some w => some w
            | none => s.inventory.currentWeapon
          else s.inventory.currentWeapon
        | none => s.inventory.currentWeapon
      { s with
        gems := s.gems - weapon.upgradeCost
        inventory := { s.inventory with
          weapons := updatedWeapons, currentWeapon := updatedCurrentWeapon }
        statistics := { s.statistics with
          itemsUpgraded := s.statistics.itemsUpgraded + 1 } }

/-- `upgradeArmor` of the source (same shape as `upgradeWeapon`). -/
def upgradeArmor (armorId : String) (s : GameState) : GameState :=
  match s.inventory.armor.find? (fun a => a.id == armorId) with
  | none => s
  | some armor =>
    if s.gems < armor.upgradeCost then s
    else
      let updatedArmor := s.inventory.armor.map (fun a =>
        if a.id == armorId then
          { a with level := a.level + 1, upgradeCost := (⌊a.upgradeCost * 1.5⌋ : ℚ) }
        else a)
      let updatedCurrentArmor :=
        match s.inventory.currentArmor with
        | some ca =>
          if ca.id == armorId then
            match updatedArmor.find? (fun a => a.id == armorId) with
            | some a => some a
            | none => s.inventory.currentArmor
          else s.inventory.currentArmor
        | none => s.inventory.currentArmor
      { s with
        gems := s.gems - armor.upgradeCost
        inventory := { s.inventory with
          armor := updatedArmor, currentArmor := updatedCurrentArmor }
        statistics := { s.statistics with
          itemsUpgraded := s.statistics.itemsUpgraded + 1 } }

/-- Does the optionally equipped weapon carry this id?
(the `currentWeapon?.id === weaponId` test of the source). -/
def currentWeaponIs (s : GameState) (weaponId : String) : Bool :=
  match s.inventory.currentWeapon with
  | some cw => cw.id == weaponId
  | none => false

/-- Does the optionally equipped armor carry this id? -/
def currentArmorIs (s : GameState) (armorId : String) : Bool :=
  match s.inventory.currentArmor with
  | some ca => ca.id == armorId
  | none => false

/-- `sellWeapon` of the source: refuses unknown ids and the currently
equipped weapon; otherwise credits `sellPrice` and removes the item. -/
def sellWeapon (weaponId : String) (s : GameState) : GameState :=
  match s.inventory.weapons.find? (fun w => w.id == weaponId) with
  | none => s
  | some weapon =>
    if currentWeaponIs s weaponId then s
    else
      { s with
        coins := s.coins + weapon.sellPrice
        inventory := { s.inventory with
          weapons := s.inventory.weapons.filter (fun w => ¬(w.id == weaponId)) }
        statistics := { s.statistics with itemsSold := s.statistics.itemsSold + 1 } }

/-- `sellArmor` of the source. -/
def sellArmor (armorId : String) (s : GameState) : GameState :=
  match s.inventory.armor.find? (fun a => a.id == armorId) with
  | none => s
  | some armor =>
    if currentArmorIs s armorId then s
    else
      { s with
        coins := s.coins + armor.sellPrice
        inventory := { s.inventory with
          armor := s.inventory.armor.filter (fun a => ¬(a.id == armorId)) }
        statistics := { s.statistics with itemsSold := s.statistics.itemsSold + 1 } }

/-- `upgradeResearch` of the source; the externally computed
`calculateResearchCost(state.research.level)` enters as the oracle `cost`. -/
def upgradeResearch (cost : ℚ) (s : GameState) : GameState :=
  if s.coins < cost then s
  else
    { s with
      coins := s.coins - cost
      research := { s.research with
        level := s.research.level + 1
        totalSpent := s.research.totalSpent + cost }
      statistics := { s.statistics with
        totalResearchSpent := s.statistics.totalResearchSpent + cost } }

/-- The fixed rarity order scanned by the chest loop. -/
def chestRarities : List String := ["common", "rare", "epic", "legendary", "mythical"]

/-- The cumulative-weight loop of `openChest`, transcribed step by step:
`cum` is the running cumulative weight, `i` the loop index and `sel` the
current `selectedRarity` (a `rarities[i]` past the end of the rarity list is
the JavaScript `undefined`, modelled as `none`). -/
def raritySelectGo (random : ℚ) (rarities : List String) :
    List ℚ → Nat → ℚ → Option String → Option String
  | [], _, _, sel => sel
  | w :: ws, i, cum, sel =>
    if random ≤ cum + w then rarities.get? i
    else raritySelectGo random rarities ws (i + 1) (cum + w) sel

/-- The rarity drawn by `openChest` from a weight vector and a draw value
(`random` is the `Math.random() * 100` sample). -/
def raritySelect (weights : List ℚ) (random : ℚ) : Option String :=
  raritySelectGo random chestRarities weights 0 0 (some "common")

/-- Bump the collection-book rarity histogram at a rarity key (an unknown key
leaves the histogram unchanged). -/
def bumpRarity (rs : RarityStats) (rarity : String) : RarityStats :=
  if rarity == "common" then { rs with common := rs.common + 1 }
  else if rarity == "rare" then { rs with rare := rs.rare + 1 }
  else if rarity == "epic" then { rs with epic := rs.epic + 1 }
  else if rarity == "legendary" then { rs with legendary := rs.legendary + 1 }
  else if rarity == "mythical" then { rs with mythical := rs.mythical + 1 }
  else rs

/-- `openChest` of the source.  Oracle inputs: `weights` is the external
`getChestRarityWeights(cost)`, `random` the `Math.random() * 100` draw,
`isWeaponRoll` the `Math.random()` of the 70/30 weapon-vs-armor roll,
`witem`/`aitem` the externally generated item for either outcome and
`gemRand` the `Math.random()` of the bonus-gem roll. -/
def openChest (cost : ℚ) (weights : List ℚ) (random : ℚ) (isWeaponRoll : ℚ)
    (witem : Weapon) (aitem : Armor) (gemRand : ℚ) (s : GameState) : GameState :=
  if s.coins < cost then s
  else
    let _selectedRarity := raritySelect weights random
    let isWeapon := isWeaponRoll < 0.7
    if isWeapon then
      let cb := s.collectionBook
      let cb :=
        if cb.weapons.contains witem.name then cb
        else { cb with
          weapons := cb.weapons ++ [witem.name]
          totalWeaponsFound := cb.totalWeaponsFound + 1 }
      let cb := { cb with rarityStats := bumpRarity cb.rarityStats witem.rarity }
      { s with
        coins := s.coins - cost
        gems := s.gems + (⌊gemRand * 10⌋ : ℚ) + 5
        inventory := { s.inventory with weapons := s.inventory.weapons ++ [witem] }
        collectionBook := cb
        statistics := { s.statistics with
          chestsOpened := s.statistics.chestsOpened + 1
          itemsCollected := s.statistics.itemsCollected + 1 } }
    else
      let cb := s.collectionBook
      let cb :=
        if cb.armor.contains aitem.name then cb
        else { cb with
          armor := cb.armor ++ [aitem.name]
          totalArmorFound := cb.totalArmorFound + 1 }
      let cb := { cb with rarityStats := bumpRarity cb.rarityStats aitem.rarity }
      { s with
        coins := s.coins - cost
        gems := s.gems + (⌊gemRand * 10⌋ : ℚ) + 5
        inventory := { s.inventory with armor := s.inventory.armor ++ [aitem] }
        collectionBook := cb
        statistics := { s.statistics with
          chestsOpened := s.statistics.chestsOpened + 1
          itemsCollected := s.statistics.itemsCollected + 1 } }

/-- `purchaseMythical` of the source; `roll` is the 50/50 weapon-vs-armor
`Math.random()` sample, `witem`/`aitem` the generated mythical item. -/
def purchaseMythical (cost : ℚ) (roll : ℚ) (witem : Weapon) (aitem : Armor)
    (s : GameState) : GameState :=
  if s.coins < cost then s
  else
    let isWeapon := roll < 0.5
    if isWeapon then
      { s with
        coins := s.coins - cost
        inventory := { s.inventory with weapons := s.inventory.weapons ++ [witem] } }
    else
      { s with
        coins := s.coins - cost
        inventory := { s.inventory with armor := s.inventory.armor ++ [aitem] } }

/-! ## Combat lifecycle -/

/-- `startCombat` of the source: shows the selection modal with an offering
produced by the external `generateRandomAdventureSkills()` (oracle `skills`). -/
def startCombat (skills : List AdventureSkill) (s : GameState) : GameState :=
  { s with adventureSkills := { s.adventureSkills with
      availableSkills := skills
      showSelectionModal := true } }

/-- `selectAdventureSkill` of the source.  `enemy` is the external
`generateEnemy(state.zone)`; `r1`, `r2` are the two `Math.random()` samples
that pick the ramp stat to double, `r3` the one that picks the stat to
reduce.  The risker and ramp cases modify `playerStats` immediately; the
lightning-chain and truth-lies cases set persistent flags; the per-combat
one-shot flags are cleared last. -/
def selectAdventureSkill (skill : AdventureSkill) (enemy : Enemy)
    (r1 r2 r3 : ℚ) (s : GameState) : GameState :=
  let ps := s.playerStats
  let eff := s.adventureSkills.skillEffects
  let modified : PlayerStats × SkillEffects :=
    match skill.«type» with
    | .risker =>
      ({ ps with hp := (⌊ps.hp * 0.85⌋ : ℚ), atk := (⌊ps.atk * 1.2⌋ : ℚ) }, eff)
    | .lightning_chain => (ps, { eff with lightningChainActive := true })
    | .truth_lies => (ps, { eff with truthLiesActive := true })
    | .ramp =>
      -- 0 = atk, 1 = def, 2 = hp, following the nested conditionals of the source
      let statToDouble : Nat := if r1 < 0.33 then 0 else if r2 < 0.5 then 1 else 2
      let statToReduce : Nat :=
        if statToDouble == 0 then (if r3 < 0.5 then 1 else 2)
        else if statToDouble == 1 then (if r3 < 0.5 then 0 else 2)
        else (if r3 < 0.5 then 0 else 1)
      let ps1 :=
        if statToDouble == 0 then { ps with atk := ps.atk * 2 }
        else if statToDouble == 1 then { ps with «def» := ps.«def» * 2 }
        else { ps with hp := ps.hp * 2 }
      let ps2 :=
        if statToReduce == 0 then { ps1 with atk := (⌊ps1.atk * 0.6⌋ : ℚ) }
        else if statToReduce == 1 then { ps1 with «def» := (⌊ps1.«def» * 0.6⌋ : ℚ) }
        else { ps1 with hp := (⌊ps1.hp * 0.6⌋ : ℚ) }
      (ps2, { eff with rampActive := true })
    | _ => (ps, eff)
  { s with
    currentEnemy := some enemy
    inCombat := true
    playerStats := modified.1
    combatLog := ["You encounter a " ++ enemy.name ++ "!"]
    adventureSkills := { s.adventureSkills with
      selectedSkill := some skill
      showSelectionModal := false
      skillEffects := { modified.2 with
        skipCardUsed := false
        metalShieldUsed := false
        dodgeUsed := false } } }

/-- `skipAdventureSkills` of the source: start combat with no selected skill
and all effect flags cleared. -/
def skipAdventureSkills (enemy : Enemy) (s : GameState) : GameState :=
  { s with
    currentEnemy := some enemy
    inCombat := true
    combatLog := ["You encounter a " ++ enemy.name ++ "!"]
    adventureSkills := { s.adventureSkills with
      selectedSkill := none
      showSelectionModal := false
      skillEffects := emptySkillEffects } }

/-- `useSkipCard` of the source. -/
def useSkipCard (s : GameState) : GameState :=
  { s with adventureSkills := { s.adventureSkills with
      skillEffects := { s.adventureSkills.skillEffects with skipCardUsed := true } } }

/-- Is the selected adventure skill of this state the given kind?
(the `selectedSkill?.type === '...'` test of the source). -/
def selectedSkillIs (s : GameState) (t : AdventureSkillType) : Bool :=
  match s.adventureSkills.selectedSkill with
  | some sk => sk.«type» == t
  | none => false

/-- Update one category cell of `accuracyByCategory`: a missing key is first
initialised to `{correct: 0, total: 0}`, then `total` (and, for a correct
answer, `correct`) increments. -/
def bumpCategory (m : List (String × CategoryStat)) (c : String)
    (isCorrect : Bool) : List (String × CategoryStat) :=
  match m.find? (fun p => p.1 == c) with
  | none => m ++ [(c, { correct := if isCorrect then 1 else 0, total := 1 })]
  | some _ =>
    m.map (fun p =>
      if p.1 == c then
        (p.1, { correct := p.2.correct + (if isCorrect then 1 else 0)
                total := p.2.total + 1 })
      else p)

/-- Optionally update the category accuracy map (the `if (category)` guard). -/
def bumpCategoryOpt (m : List (String × CategoryStat)) (c : Option String)
    (isCorrect : Bool) : List (String × CategoryStat) :=
  match c with
  | none => m
  | some cat => bumpCategory m cat isCorrect

/-- The player damage of a hit in `attack`: `max(1, atk - enemy.def)`,
multiplied by 1.15 (floored) under an active lightning chain. -/
def attackDamage (s : GameState) (e : Enemy) : ℚ :=
  let damage := max 1 (s.playerStats.atk - e.«def»)
  if s.adventureSkills.skillEffects.lightningChainActive
  then (⌊damage * 1.15⌋ : ℚ) else damage

/-- The damage-and-bookkeeping phase of `attack` (everything before the
victory check), for a present enemy `e`.  The hit branch damages the enemy,
advances the knowledge streak and the hit statistics; the miss branch either
consumes the dodge or damages the player (with the lightning-chain penalty),
and resets the streak.  `totalQuestionsAnswered` increments in both. -/
def attackPhase1 (hit : Bool) (category : Option String) (e : Enemy)
    (s : GameState) : GameState :=
  if hit then
    let damage := attackDamage s e
    let eNew := { e with hp := max 0 (e.hp - damage) }
    let cur := s.knowledgeStreak.current + 1
    { s with
      currentEnemy := some eNew
      combatLog := s.combatLog ++ ["You deal " ++ toString damage ++ " damage!"]
      knowledgeStreak :=
        { current := cur
          best := if cur > s.knowledgeStreak.best then cur else s.knowledgeStreak.best
          multiplier := 1 + cur * 0.1 }
      statistics := { s.statistics with
        correctAnswers := s.statistics.correctAnswers + 1
        totalDamageDealt := s.statistics.totalDamageDealt + damage
        accuracyByCategory := bumpCategoryOpt s.statistics.accuracyByCategory category true
        totalQuestionsAnswered := s.statistics.totalQuestionsAnswered + 1 } }
  else
    let enemyDamage := max 1 (e.atk - s.playerStats.«def»)
    let dodged :=
      s.adventureSkills.skillEffects.dodgeUsed == false &&
      selectedSkillIs s .dodge
    if dodged then
      { s with
        currentEnemy := some e
        combatLog := s.combatLog ++ ["You dodge the attack!"]
        adventureSkills := { s.adventureSkills with
          skillEffects := { s.adventureSkills.skillEffects with dodgeUsed := true } }
        knowledgeStreak := { s.knowledgeStreak with current := 0, multiplier := 1 }
        statistics := { s.statistics with
          accuracyByCategory := bumpCategoryOpt s.statistics.accuracyByCategory category false
          totalQuestionsAnswered := s.statistics.totalQuestionsAnswered + 1 } }
    else
      let enemyDamage :=
        if s.adventureSkills.skillEffects.lightningChainActive
        then (⌊enemyDamage * 1.1⌋ : ℚ) else enemyDamage
      { s with
        currentEnemy := some e
        playerStats := { s.playerStats with
          hp := max 0 (s.playerStats.hp - enemyDamage) }
        combatLog := s.combatLog ++ ["Enemy deals " ++ toString enemyDamage ++ " damage!"]
        knowledgeStreak := { s.knowledgeStreak with current := 0, multiplier := 1 }
        statistics := { s.statistics with
          totalDamageTaken := s.statistics.totalDamageTaken + enemyDamage
          accuracyByCategory := bumpCategoryOpt s.statistics.accuracyByCategory category false
          totalQuestionsAnswered := s.statistics.totalQuestionsAnswered + 1 } }

/-- The victory check of `attack`: when the (updated) enemy hp is 0 or below,
pay out the streak-scaled rewards, advance the zone, end combat, reset the
adventure-skill state, unlock premium from zone 50 on and update the victory
statistics. -/
def attackVictory (s : GameState) : GameState :=
  match s.currentEnemy with
  | none => s
  | some e =>
    if e.hp ≤ 0 then
      let coinReward := (⌊(10 + s.zone * 2) * s.knowledgeStreak.multiplier⌋ : ℚ)
      let gemReward := (⌊(1 + (⌊s.zone / 5⌋ : ℚ)) * s.knowledgeStreak.multiplier⌋ : ℚ)
      let newZone := s.zone + 1
      { s with
        coins := s.coins + coinReward
        gems := s.gems + gemReward
        zone := newZone
        inCombat := false
        currentEnemy := none
        combatLog := s.combatLog ++
          ["Victory! +" ++ toString coinReward ++ " coins, +" ++ toString gemReward ++ " gems"]
        adventureSkills := emptyAdventureSkills
        isPremium := if newZone ≥ 50 then true else s.isPremium
        statistics := { s.statistics with
          totalVictories := s.statistics.totalVictories + 1
          coinsEarned := s.statistics.coinsEarned + coinReward
          gemsEarned := s.statistics.gemsEarned + gemReward
          zonesReached := max s.statistics.zonesReached newZone } }
    else s

/-- The defeat check of `attack`, evaluated after the victory check: an unused
selected metal shield survives at 1 hp for 30% of atk; otherwise the one-time
free revival restores full hp; otherwise combat ends in defeat. -/
def attackDefeat (s : GameState) : GameState :=
  if s.playerStats.hp ≤ 0 then
    if selectedSkillIs s .metal_shield &&
        !s.adventureSkills.skillEffects.metalShieldUsed then
      { s with
        playerStats := { s.playerStats with
          hp := 1
          atk := (⌊s.playerStats.atk * 0.7⌋ : ℚ) }
        adventureSkills := { s.adventureSkills with
          skillEffects := { s.adventureSkills.skillEffects with metalShieldUsed := true } }
        combatLog := s.combatLog ++ ["Metal Shield activated! Sacrificed ATK to survive!"] }
    else if !s.hasUsedRevival then
      { s with
        playerStats := { s.playerStats with hp := s.playerStats.maxHp }
        hasUsedRevival := true
        combatLog := s.combatLog ++ ["You have been revived!"]
        statistics := { s.statistics with revivals := s.statistics.revivals + 1 } }
    else
      { s with
        inCombat := false
        currentEnemy := none
        combatLog := s.combatLog ++ ["You have been defeated!"]
        statistics := { s.statistics with totalDeaths := s.statistics.totalDeaths + 1 }
        adventureSkills := emptyAdventureSkills }
  else s

/-- `attack` of the source: a no-op without an enemy; otherwise the damage
phase followed by the victory check followed by the defeat check. -/
def attack (hit : Bool) (category : Option String) (s : GameState) : GameState :=
  match s.currentEnemy with
  | none => s
  | some e => attackDefeat (attackVictory (attackPhase1 hit category e s))

/-- `resetGame` of the source: replace the state by a fresh default state. -/
def resetGame (now : ℚ) (achievements0 : List Achievement)
    (playerTags0 : List PlayerTag) (_s : GameState) : GameState :=
  createInitialGameState now achievements0 playerTags0

/-! ## Remaining operations -/

/-- `setGameMode` of the source. -/
def setGameMode (mode : String) (s : GameState) : GameState :=
  { s with gameMode := { s.gameMode with current := mode } }

/-- The three cheat-flag keys of `toggleCheat`. -/
inductive CheatKey where
  | infiniteCoins
  | infiniteGems
  | obtainAnyItem
  deriving Repr, DecidableEq

/-- `toggleCheat` of the source. -/
def toggleCheat (key : CheatKey) (s : GameState) : GameState :=
  { s with cheats :=
    match key with
    | .infiniteCoins => { s.cheats with infiniteCoins := !s.cheats.infiniteCoins }
    | .infiniteGems => { s.cheats with infiniteGems := !s.cheats.infiniteGems }
    | .obtainAnyItem => { s.cheats with obtainAnyItem := !s.cheats.obtainAnyItem } }

/-- `mineGem` of the source; `isShinyNode` is the 5% `Math.random()` outcome.
A shiny node yields one shiny gem, a normal node one regular gem. -/
def mineGem (isShinyNode : Bool) (s : GameState) : GameState :=
  if isShinyNode then
    { s with
      shinyGems := s.shinyGems + 1
      mining := { s.mining with totalShinyGemsMined := s.mining.totalShinyGemsMined + 1 }
      statistics := { s.statistics with
        shinyGemsEarned := s.statistics.shinyGemsEarned + 1 } }
  else
    { s with
      gems := s.gems + 1
      mining := { s.mining with totalGemsMined := s.mining.totalGemsMined + 1 }
      statistics := { s.statistics with gemsEarned := s.statistics.gemsEarned + 1 } }

/-- `exchangeShinyGems` of the source: guarded by the shiny-gem balance; one
shiny gem converts into 10 gems. -/
def exchangeShinyGems (amount : ℚ) (s : GameState) : GameState :=
  if s.shinyGems < amount then s
  else
    { s with
      shinyGems := s.shinyGems - amount
      gems := s.gems + amount * 10 }

/-- `discardItem` of the source: an unguarded filter on the owned weapons or
armor list (no equipped-item check, no refund). -/
def discardItem (itemId : String) (isWeapon : Bool) (s : GameState) : GameState :=
  if isWeapon then
    { s with inventory := { s.inventory with
        weapons := s.inventory.weapons.filter (fun w => ¬(w.id == itemId)) } }
  else
    { s with inventory := { s.inventory with
        armor := s.inventory.armor.filter (fun a => ¬(a.id == itemId)) } }

/-- `purchaseRelic` of the source: buys a market relic (gems guard, 5-slot
equipped cap), adding it to both the owned and the equipped relics. -/
def purchaseRelic (relicId : String) (s : GameState) : GameState :=
  match s.yojefMarket.items.find? (fun r => r.id == relicId) with
  | none => s
  | some relic =>
    if s.gems < relic.cost ∨ 5 ≤ s.inventory.equippedRelics.length then s
    else
      { s with
        gems := s.gems - relic.cost
        inventory := { s.inventory with
          relics := s.inventory.relics ++ [relic]
          equippedRelics := s.inventory.equippedRelics ++ [relic] }
        yojefMarket := { s.yojefMarket with
          items := s.yojefMarket.items.filter (fun r => ¬(r.id == relicId)) } }

/-- `upgradeRelic` of the source.  The `baseAtk ? baseAtk + 22 : undefined`
conditionals of the source are truthiness tests: a present value of `0`
collapses to `undefined` (`none`). -/
def upgradeRelic (relicId : String) (s : GameState) : GameState :=
  match s.inventory.relics.find? (fun r => r.id == relicId) with
  | none => s
  | some relic =>
    if s.gems < relic.upgradeCost then s
    else
      let bump := fun (r : RelicItem) =>
        { r with
          level := r.level + 1
          upgradeCost := (⌊r.upgradeCost * 1.5⌋ : ℚ)
          baseAtk := match r.baseAtk with
            | some v => if v == 0 then none else some (v + 22)
            | none => none
          baseDef := match r.baseDef with
            | some v => if v == 0 then none else some (v + 15)
            | none => none }
      let updatedRelics := s.inventory.relics.map (fun r =>
        if r.id == relicId then bump r else r)
      let updatedEquippedRelics := s.inventory.equippedRelics.map (fun r =>
        if r.id == relicId then
          match updatedRelics.find? (fun ur => ur.id == relicId) with
          | some ur => ur
          | none => r
        else r)
      { s with
        gems := s.gems - relic.upgradeCost
        inventory := { s.inventory with
          relics := updatedRelics
          equippedRelics := updatedEquippedRelics } }

/-- `equipRelic` of the source. -/
def equipRelic (relicId : String) (s : GameState) : GameState :=
  match s.inventory.relics.find? (fun r => r.id == relicId) with
  | none => s
  | some relic =>
    if 5 ≤ s.inventory.equippedRelics.length ∨
        s.inventory.equippedRelics.any (fun r => r.id == relicId) then s
    else
      { s with inventory := { s.inventory with
          equippedRelics := s.inventory.equippedRelics ++ [relic] } }

/-- `unequipRelic` of the source. -/
def unequipRelic (relicId : String) (s : GameState) : GameState :=
  { s with inventory := { s.inventory with
      equippedRelics := s.inventory.equippedRelics.filter (fun r => ¬(r.id == relicId)) } }

/-- `sellRelic` of the source: an unguarded filter on both the owned and the
equipped relic lists (no equipped-item check, no coin credit). -/
def sellRelic (relicId : String) (s : GameState) : GameState :=
  { s with inventory := { s.inventory with
      relics := s.inventory.relics.filter (fun r => ¬(r.id == relicId))
      equippedRelics := s.inventory.equippedRelics.filter (fun r => ¬(r.id == relicId)) } }

/-- `claimDailyReward` of the source; `now` models the claim timestamp. -/
def claimDailyReward (now : ℚ) (s : GameState) : GameState :=
  match s.dailyRewards.availableReward with
  | none => s
  | some reward =>
    { s with
      coins := s.coins + reward.coins
      gems := s.gems + reward.gems
      dailyRewards := { s.dailyRewards with
        availableReward := none
        lastClaimDate := some now
        rewardHistory := s.dailyRewards.rewardHistory ++
          [{ reward with claimed := true, claimDate := some now }] } }

/-- `claimOfflineRewards` of the source. -/
def claimOfflineRewards (s : GameState) : GameState :=
  { s with
    coins := s.coins + s.offlineProgress.offlineCoins
    gems := s.gems + s.offlineProgress.offlineGems
    offlineProgress := { s.offlineProgress with
      offlineCoins := 0, offlineGems := 0, offlineTime := 0 } }

/-- The `reduce((sum, w) => sum + w.sellPrice, 0)` totals of `bulkSell`. -/
def sellTotal {α : Type} (price : α → ℚ) (l : List α) : ℚ :=
  l.foldl (fun sum x => sum + price x) 0

/-- `bulkSell` of the source: sells every listed item except the currently
equipped one, crediting the summed sell prices. -/
def bulkSell (itemIds : List String) (isWeapon : Bool) (s : GameState) : GameState :=
  if isWeapon then
    let weaponsToSell := s.inventory.weapons.filter (fun w =>
      itemIds.contains w.id && ¬currentWeaponIs s w.id)
    let totalValue := sellTotal Weapon.sellPrice weaponsToSell
    { s with
      coins := s.coins + totalValue
      inventory := { s.inventory with
        weapons := s.inventory.weapons.filter (fun w =>
          ¬itemIds.contains w.id ∨ currentWeaponIs s w.id) } }
  else
    let armorToSell := s.inventory.armor.filter (fun a =>
      itemIds.contains a.id && ¬currentArmorIs s a.id)
    let totalValue := sellTotal Armor.sellPrice armorToSell
    { s with
      coins := s.coins + totalValue
      inventory := { s.inventory with
        armor := s.inventory.armor.filter (fun a =>
          ¬itemIds.contains a.id ∨ currentArmorIs s a.id) } }

/-- `bulkUpgrade` of the source: one total gems guard, then every listed item
levels up with the uniform x1.5 floored cost growth. -/
def bulkUpgrade (itemIds : List String) (isWeapon : Bool) (s : GameState) : GameState :=
  if isWeapon then
    let weaponsToUpgrade := s.inventory.weapons.filter (fun w => itemIds.contains w.id)
    let totalCost := sellTotal Weapon.upgradeCost weaponsToUpgrade
    if s.gems < totalCost then s
    else
      { s with
        gems := s.gems - totalCost
        inventory := { s.inventory with
          weapons := s.inventory.weapons.map (fun w =>
            if itemIds.contains w.id then
              { w with level := w.level + 1, upgradeCost := (⌊w.upgradeCost * 1.5⌋ : ℚ) }
            else w) } }
  else
    let armorToUpgrade := s.inventory.armor.filter (fun a => itemIds.contains a.id)
    let totalCost := sellTotal Armor.upgradeCost armorToUpgrade
    if s.gems < totalCost then s
    else
      { s with
        gems := s.gems - totalCost
        inventory := { s.inventory with
          armor := s.inventory.armor.map (fun a =>
            if itemIds.contains a.id then
              { a with level := a.level + 1, upgradeCost := (⌊a.upgradeCost * 1.5⌋ : ℚ) }
            else a) } }

/-- `plantSeed` of the source; `now` models `new Date()`. -/
def plantSeed (now : ℚ) (s : GameState) : GameState :=
  if s.coins < s.gardenOfGrowth.seedCost ∨ s.gardenOfGrowth.isPlanted then s
  else
    { s with
      coins := s.coins - s.gardenOfGrowth.seedCost
      gardenOfGrowth := { s.gardenOfGrowth with
        isPlanted := true
        plantedAt := some now
        lastWatered := some now
        waterHoursRemaining := 24 } }

/-- `buyWater` of the source: cost is `(hours / 24) * waterCost`. -/
def buyWater (hours : ℚ) (s : GameState) : GameState :=
  let cost := hours / 24 * s.gardenOfGrowth.waterCost
  if s.coins < cost then s
  else
    { s with
      coins := s.coins - cost
      gardenOfGrowth := { s.gardenOfGrowth with
        waterHoursRemaining := s.gardenOfGrowth.waterHoursRemaining + hours } }

/-- A `Partial<settings>` argument of `updateSettings`. -/
structure SettingsPatch where
  colorblindMode : Option Bool
  darkMode : Option Bool
  language : Option String
  notifications : Option Bool
  deriving Repr, DecidableEq

/-- `updateSettings` of the source: spread the patch over the settings. -/
def updateSettings (p : SettingsPatch) (s : GameState) : GameState :=
  { s with settings :=
    { colorblindMode := p.colorblindMode.getD s.settings.colorblindMode
      darkMode := p.darkMode.getD s.settings.darkMode
      language := p.language.getD s.settings.language
      notifications := p.notifications.getD s.settings.notifications } }

/-- `addCoins` of the source: an unguarded increment by an arbitrary amount. -/
def addCoins (amount : ℚ) (s : GameState) : GameState :=
  { s with coins := s.coins + amount }

/-- `addGems` of the source: an unguarded increment by an arbitrary amount. -/
def addGems (amount : ℚ) (s : GameState) : GameState :=
  { s with gems := s.gems + amount }

/-- `teleportToZone` of the source. -/
def teleportToZone (zone : ℚ) (s : GameState) : GameState :=
  { s with zone := max 1 zone }

/-- `setExperience` of the source. -/
def setExperience (xp : ℚ) (s : GameState) : GameState :=
  { s with progression := { s.progression with experience := max 0 xp } }

/-- The menu-skill type catalog of `rollSkill`. -/
def menuSkillTypes : List String :=
  ["coin_vacuum", "treasurer", "xp_surge", "luck_gem", "enchanter"]

/-- The `skillNames` table of `rollSkill`. -/
def menuSkillName (t : String) : String :=
  if t == "coin_vacuum" then "Coin Vacuum"
  else if t == "treasurer" then "Treasurer"
  else if t == "xp_surge" then "XP Surge"
  else if t == "luck_gem" then "Luck Gem"
  else if t == "enchanter" then "Enchanter"
  else ""

/-- The `skillDescriptions` table of `rollSkill`. -/
def menuSkillDescription (t : String) : String :=
  if t == "coin_vacuum" then "Get 15 free coins per minute of play time"
  else if t == "treasurer" then "Guarantees next chest opened is epic or better"
  else if t == "xp_surge" then "Gives 300% XP gains for 24 hours"
  else if t == "luck_gem" then "All gems mined for 1 hour are shiny gems"
  else if t == "enchanter" then "Epic+ drops have 80% chance to be enchanted"
  else ""

/-- `rollSkill` of the source; `rand` is the type-picking `Math.random()`
sample, `idStr` the random id string and `now` the roll instant. -/
def rollSkill (rand : ℚ) (idStr : String) (now : ℚ) (s : GameState) : GameState :=
  if s.coins < 100 then s
  else
    let randomType := menuSkillTypes.getD (⌊rand * 5⌋).toNat "coin_vacuum"
    let duration : ℚ :=
      if randomType == "luck_gem" then 1
      else if randomType == "treasurer" then 0.1
      else 24
    let newSkill : MenuSkill :=
      { id := idStr
        name := menuSkillName randomType
        description := menuSkillDescription randomType
        duration := duration
        activatedAt := now
        expiresAt := now + duration * 60 * 60 * 1000
        «type» := randomType }
    { s with
      coins := s.coins - 100
      skills := { s.skills with
        activeMenuSkill := some newSkill
        lastRollTime := some now } }

/-! ## The public operation catalog as a transition system

Every public mutation of the hook is one constructor; oracle inputs
(`Math.random()` samples, generator outputs, timestamps) are constructor
payloads.  `step` dispatches to the embedded operation. -/

inductive Op where
  | equipWeapon (w : Weapon)
  | equipArmor (a : Armor)
  | upgradeWeapon (weaponId : String)
  | upgradeArmor (armorId : String)
  | sellWeapon (weaponId : String)
  | sellArmor (armorId : String)
  | upgradeResearch (cost : ℚ)
  | openChest (cost : ℚ) (weights : List ℚ) (random : ℚ) (isWeaponRoll : ℚ)
      (witem : Weapon) (aitem : Armor) (gemRand : ℚ)
  | purchaseMythical (cost : ℚ) (roll : ℚ) (witem : Weapon) (aitem : Armor)
  | startCombat (skills : List AdventureSkill)
  | selectAdventureSkill (skill : AdventureSkill) (enemy : Enemy) (r1 r2 r3 : ℚ)
  | skipAdventureSkills (enemy : Enemy)
  | useSkipCard
  | attack (hit : Bool) (category : Option String)
  | resetGame (now : ℚ) (achievements0 : List Achievement) (playerTags0 : List PlayerTag)
  | setGameMode (mode : String)
  | toggleCheat (key : CheatKey)
  | mineGem (isShinyNode : Bool)
  | exchangeShinyGems (amount : ℚ)
  | discardItem (itemId : String) (isWeapon : Bool)
  | purchaseRelic (relicId : String)
  | upgradeRelic (relicId : String)
  | equipRelic (relicId : String)
  | unequipRelic (relicId : String)
  | sellRelic (relicId : String)
  | claimDailyReward (now : ℚ)
  | claimOfflineRewards
  | bulkSell (itemIds : List String) (isWeapon : Bool)
  | bulkUpgrade (itemIds : List String) (isWeapon : Bool)
  | plantSeed (now : ℚ)
  | buyWater (hours : ℚ)
  | updateSettings (p : SettingsPatch)
  | addCoins (amount : ℚ)
  | addGems (amount : ℚ)
  | teleportToZone (zone : ℚ)
  | setExperience (xp : ℚ)
  | rollSkill (rand : ℚ) (idStr : String) (now : ℚ)

/-- Apply one public operation to a committed state. -/
def step (op : Op) (s : GameState) : GameState :=
  match op with
  | .equipWeapon w => equipWeapon w s
  | .equipArmor a => equipArmor a s
  | .upgradeWeapon weaponId => upgradeWeapon weaponId s
  | .upgradeArmor armorId => upgradeArmor armorId s
  | .sellWeapon weaponId => sellWeapon weaponId s
  | .sellArmor armorId => sellArmor armorId s
  | .upgradeResearch cost => upgradeResearch cost s
  | .openChest cost weights random isWeaponRoll witem aitem gemRand =>
      openChest cost weights random isWeaponRoll witem aitem gemRand s
  | .purchaseMythical cost roll witem aitem => purchaseMythical cost roll witem aitem s
  | .startCombat skills => startCombat skills s
  | .selectAdventureSkill skill enemy r1 r2 r3 => selectAdventureSkill skill enemy r1 r2 r3 s
  | .skipAdventureSkills enemy => skipAdventureSkills enemy s
  | .useSkipCard => useSkipCard s
  | .attack hit category => attack hit category s
  | .resetGame now ach tags => resetGame now ach tags s
  | .setGameMode mode => setGameMode mode s
  | .toggleCheat key => toggleCheat key s
  | .mineGem isShinyNode => mineGem isShinyNode s
  | .exchangeShinyGems amount => exchangeShinyGems amount s
  | .discardItem itemId isWeapon => discardItem itemId isWeapon s
  | .purchaseRelic relicId => purchaseRelic relicId s
  | .upgradeRelic relicId => upgradeRelic relicId s
  | .equipRelic relicId => equipRelic relicId s
  | .unequipRelic relicId => unequipRelic relicId s
  | .sellRelic relicId => sellRelic relicId s
  | .claimDailyReward now => claimDailyReward now s
  | .claimOfflineRewards => claimOfflineRewards s
  | .bulkSell itemIds isWeapon => bulkSell itemIds isWeapon s
  | .bulkUpgrade itemIds isWeapon => bulkUpgrade itemIds isWeapon s
  | .plantSeed now => plantSeed now s
  | .buyWater hours => buyWater hours s
  | .updateSettings p => updateSettings p s
  | .addCoins amount => addCoins amount s
  | .addGems amount => addGems amount s
  | .teleportToZone zone => teleportToZone zone s
  | .setExperience xp => setExperience xp s
  | .rollSkill rand idStr now => rollSkill rand idStr now s

/-- Run a sequence of public operations from a state. -/
def runOps (ops : List Op) (s : GameState) : GameState :=
  ops.foldl (fun st op => step op st) s

/-- Well-formed oracle inputs: every `Math.random()` sample lies in its real
range and externally generated items carry nonnegative prices (the generator
tables are external collaborators; the engine never constructs an item with a
negative price itself).  For `addCoins`/`addGems`/`exchangeShinyGems` the
amount is required to be nonnegative. -/
def Op.Valid : Op → Prop
  | .openChest _ _ random isWeaponRoll witem aitem gemRand =>
      0 ≤ random ∧ random < 100 ∧ 0 ≤ isWeaponRoll ∧ isWeaponRoll < 1 ∧
      0 ≤ gemRand ∧ gemRand < 1 ∧
      0 ≤ witem.sellPrice ∧ 0 ≤ aitem.sellPrice
  | .purchaseMythical _ roll witem aitem =>
      0 ≤ roll ∧ roll < 1 ∧ 0 ≤ witem.sellPrice ∧ 0 ≤ aitem.sellPrice
  | .selectAdventureSkill _ _ r1 r2 r3 =>
      0 ≤ r1 ∧ r1 < 1 ∧ 0 ≤ r2 ∧ r2 < 1 ∧ 0 ≤ r3 ∧ r3 < 1
  | .exchangeShinyGems amount => 0 ≤ amount
  | .addCoins amount => 0 ≤ amount
  | .addGems amount => 0 ≤ amount
  | .rollSkill rand _ _ => 0 ≤ rand ∧ rand < 1
  | _ => True

/-- Is this operation the full game reset? -/
def Op.isReset : Op → Bool
  | .resetGame _ _ _ => true
  | _ => false

/-- The operation is not a ramp selection whose doubled stat is hp (under the
nested conditionals of the source, hp is doubled exactly when the first
sample is at least 0.33 and the second at least 0.5). -/
def Op.NoHpRamp : Op → Prop
  | .selectAdventureSkill skill _ r1 r2 _ =>
      ¬(skill.«type» = .ramp ∧ ¬(r1 < 0.33) ∧ ¬(r2 < 0.5))
  | _ => True

/-! ## Hydration of a persisted snapshot -/

/-- A persisted partial `skills` sub-object. -/
structure SkillsSnapshot where
  activeMenuSkill : Option (Option MenuSkill)
  lastRollTime : Option (Option ℚ)
  playTimeThisSession : Option ℚ
  sessionStartTime : Option ℚ
  deriving Repr, DecidableEq

/-- A persisted partial `adventureSkills` sub-object (the nested
`skillEffects` object is replaced as a whole when present, matching the
one-level spread of the source). -/
structure AdventureSkillsSnapshot where
  selectedSkill : Option (Option AdventureSkill)
  availableSkills : Option (List AdventureSkill)
  showSelectionModal : Option Bool
  skillEffects : Option SkillEffects
  deriving Repr, DecidableEq

/-- A persisted snapshot: every top-level field may be absent (a `none`
field was not present in the stored JSON object). -/
structure GameStateSnapshot where
  coins : Option ℚ
  gems : Option ℚ
  shinyGems : Option ℚ
  zone : Option ℚ
  playerStats : Option PlayerStats
  inventory : Option Inventory
  currentEnemy : Option (Option Enemy)
  inCombat : Option Bool
  combatLog : Option (List String)
  research : Option Research
  isPremium : Option Bool
  achievements : Option (List Achievement)
  collectionBook : Option CollectionBook
  knowledgeStreak : Option KnowledgeStreak
  gameMode : Option GameModeState
  statistics : Option Statistics
  cheats : Option CheatSettings
  mining : Option MiningState
  yojefMarket : Option YojefMarket
  playerTags : Option (List PlayerTag)
  dailyRewards : Option DailyRewardsState
  progression : Option Progression
  offlineProgress : Option OfflineProgress
  gardenOfGrowth : Option GardenOfGrowth
  settings : Option SettingsState
  hasUsedRevival : Option Bool
  skills : Option SkillsSnapshot
  adventureSkills : Option AdventureSkillsSnapshot

/-- The deep merge of the `skills` sub-object: defaults underneath, persisted
values on top (`{...createInitialGameState().skills, ...parsedState.skills}`;
a wholly absent sub-object spreads as the empty object). -/
def mergeSkills (d : SkillsState) (p : Option SkillsSnapshot) : SkillsState :=
  match p with
  | none => d
  | some q =>
    { activeMenuSkill := q.activeMenuSkill.getD d.activeMenuSkill
      lastRollTime := q.lastRollTime.getD d.lastRollTime
      playTimeThisSession := q.playTimeThisSession.getD d.playTimeThisSession
      sessionStartTime := q.sessionStartTime.getD d.sessionStartTime }

/-- The deep merge of the `adventureSkills` sub-object. -/
def mergeAdventureSkills (d : AdventureSkillsState)
    (p : Option AdventureSkillsSnapshot) : AdventureSkillsState :=
  match p with
  | none => d
  | some q =>
    { selectedSkill := q.selectedSkill.getD d.selectedSkill
      availableSkills := q.availableSkills.getD d.availableSkills
      showSelectionModal := q.showSelectionModal.getD d.showSelectionModal
      skillEffects := q.skillEffects.getD d.skillEffects }

/-- The `completeState` construction of `loadGameState`: shallow-merge the
snapshot over the freshly constructed default state, then deep-merge the
`skills` and `adventureSkills` sub-objects. -/
def hydrate (d : GameState) (p : GameStateSnapshot) : GameState :=
  { coins := p.coins.getD d.coins
    gems := p.gems.getD d.gems
    shinyGems := p.shinyGems.getD d.shinyGems
    zone := p.zone.getD d.zone
    playerStats := p.playerStats.getD d.playerStats
    inventory := p.inventory.getD d.inventory
    currentEnemy := p.currentEnemy.getD d.currentEnemy
    inCombat := p.inCombat.getD d.inCombat
    combatLog := p.combatLog.getD d.combatLog
    research := p.research.getD d.research
    isPremium := p.isPremium.getD d.isPremium
    achievements := p.achievements.getD d.achievements
    collectionBook := p.collectionBook.getD d.collectionBook
    knowledgeStreak := p.knowledgeStreak.getD d.knowledgeStreak
    gameMode := p.gameMode.getD d.gameMode
    statistics := p.statistics.getD d.statistics
    cheats := p.cheats.getD d.cheats
    mining := p.mining.getD d.mining
    yojefMarket := p.yojefMarket.getD d.yojefMarket
    playerTags := p.playerTags.getD d.playerTags
    dailyRewards := p.dailyRewards.getD d.dailyRewards
    progression := p.progression.getD d.progression
    offlineProgress := p.offlineProgress.getD d.offlineProgress
    gardenOfGrowth := p.gardenOfGrowth.getD d.gardenOfGrowth
    settings := p.settings.getD d.settings
    hasUsedRevival := p.hasUsedRevival.getD d.hasUsedRevival
    skills := mergeSkills d.skills p.skills
    adventureSkills := mergeAdventureSkills d.adventureSkills p.adventureSkills }

/-- `loadGameState` for a present persisted snapshot: hydrate it over the
default state (defaults constructed with the load-time oracles). -/
def loadGameState (p : GameStateSnapshot) (now : ℚ)
    (achievements0 : List Achievement) (playerTags0 : List PlayerTag) : GameState :=
  hydrate (createInitialGameState now achievements0 playerTags0) p

/-! ## Helper lemmas -/

/-- A fold summing nonnegative contributions on top of `c` is at least `c`. -/
theorem le_foldl_add {α : Type} (price : α → ℚ) (l : List α) (c : ℚ)
    (h : ∀ x ∈ l, 0 ≤ price x) : c ≤ l.foldl (fun sum x => sum + price x) c := by
  induction l generalizing c with
  | nil => exact le_refl c
  | cons a t ih =>
    have h1 : c ≤ c + price a := by
      have := h a (List.mem_cons_self a t)
      linarith
    have h2 : c + price a ≤ t.foldl (fun sum x => sum + price x) (c + price a) :=
      ih (c + price a) (fun x hx => h x (List.mem_cons_of_mem a hx))
    calc c ≤ c + price a := h1
      _ ≤ _ := h2

/-- `sellTotal` of items with nonnegative prices is nonnegative. -/
theorem sellTotal_nonneg {α : Type} (price : α → ℚ) (l : List α)
    (h : ∀ x ∈ l, 0 ≤ price x) : 0 ≤ sellTotal price l :=
  le_foldl_add price l 0 h

/-- Mapping an update that only rewrites elements matched by `q` commutes
with `find? q` when the update preserves `q`. -/
theorem find?_map_update {α : Type} (q : α → Bool) (f : α → α)
    (hf : ∀ a, q (f a) = q a) (l : List α) :
    (l.map (fun a => if q a then f a else a)).find? q = (l.find? q).map f := by
  induction l with
  | nil => rfl
  | cons a t ih =>
    by_cases h : q a = true
    · simp [List.find?_cons, h, hf]
    · simp only [Bool.not_eq_true] at h
      simp [List.find?_cons, h, hf, ih]

/-! ## The resource invariant (claim C1) -/

/-- The inductive invariant carried through every public operation: the three
currency counters are nonnegative, together with the auxiliary facts the
per-operation proofs need (zone and streak bounds, unclaimed offline rewards
nonnegative, no pending daily reward — nothing in the engine ever creates
one — and nonnegative sell prices of all owned items). -/
structure StateInv (s : GameState) : Prop where
  coins_nonneg : 0 ≤ s.coins
  gems_nonneg : 0 ≤ s.gems
  shiny_nonneg : 0 ≤ s.shinyGems
  zone_pos : 1 ≤ s.zone
  streak_nonneg : 0 ≤ s.knowledgeStreak.current
  mult_ge_one : 1 ≤ s.knowledgeStreak.multiplier
  offlineCoins_nonneg : 0 ≤ s.offlineProgress.offlineCoins
  offlineGems_nonneg : 0 ≤ s.offlineProgress.offlineGems
  daily_none : s.dailyRewards.availableReward = none
  weapons_price : ∀ w ∈ s.inventory.weapons, 0 ≤ w.sellPrice
  armor_price : ∀ a ∈ s.inventory.armor, 0 ≤ a.sellPrice

/-- Transport the invariant along a state whose invariant-relevant fields
agree with a state already known to satisfy it. -/
theorem StateInv.carry {s t : GameState} (h : StateInv s)
    (hc : t.coins = s.coins) (hg : t.gems = s.gems) (hsh : t.shinyGems = s.shinyGems)
    (hz : t.zone = s.zone) (hk : t.knowledgeStreak = s.knowledgeStreak)
    (ho : t.offlineProgress = s.offlineProgress)
    (hd : t.dailyRewards.availableReward = s.dailyRewards.availableReward)
    (hw : t.inventory.weapons = s.inventory.weapons)
    (ha : t.inventory.armor = s.inventory.armor) : StateInv t := by
  refine ⟨?_, ?_, ?_, ?_, ?_, ?_, ?_, ?_, ?_, ?_, ?_⟩ <;>
    first
    | (rw [hc]; exact h.coins_nonneg)
    | (rw [hg]; exact h.gems_nonneg)
    | (rw [hsh]; exact h.shiny_nonneg)
    | (rw [hz]; exact h.zone_pos)
    | (rw [hk]; exact h.streak_nonneg)
    | (rw [hk]; exact h.mult_ge_one)
    | (rw [ho]; exact h.offlineCoins_nonneg)
    | (rw [ho]; exact h.offlineGems_nonneg)
    | (rw [hd]; exact h.daily_none)
    | (rw [hw]; exact h.weapons_price)
    | (rw [ha]; exact h.armor_price)

/-- The initial state satisfies the invariant. -/
theorem stateInv_init (now : ℚ) (ach : List Achievement) (tags : List PlayerTag) :
    StateInv (createInitialGameState now ach tags) := by
  refine ⟨?_, ?_, ?_, ?_, ?_, ?_, ?_, ?_, ?_, ?_, ?_⟩ <;>
    simp [createInitialGameState]

theorem stateInv_equipWeapon (w : Weapon) (s : GameState) (h : StateInv s) :
    StateInv (equipWeapon w s) :=
  h.carry rfl rfl rfl rfl rfl rfl rfl rfl rfl

theorem stateInv_equipArmor (a : Armor) (s : GameState) (h : StateInv s) :
    StateInv (equipArmor a s) :=
  h.carry rfl rfl rfl rfl rfl rfl rfl rfl rfl

theorem stateInv_upgradeWeapon (weaponId : String) (s : GameState) (h : StateInv s) :
    StateInv (upgradeWeapon weaponId s) := by
  unfold upgradeWeapon
  split
  · exact h
  · rename_i weapon hf
    split
    · exact h
    · rename_i hle
      refine ⟨h.coins_nonneg, ?_, h.shiny_nonneg, h.zone_pos, h.streak_nonneg,
        h.mult_ge_one, h.offlineCoins_nonneg, h.offlineGems_nonneg, h.daily_none,
        ?_, h.armor_price⟩
      · show 0 ≤ s.gems - weapon.upgradeCost
        exact sub_nonneg.mpr (not_lt.mp hle)
      · intro w hw
        obtain ⟨w0, hw0, rfl⟩ := List.mem_map.mp hw
        by_cases hid : (w0.id == weaponId) = true
        · rw [if_pos hid]; exact h.weapons_price w0 hw0
        · rw [if_neg hid]; exact h.weapons_price w0 hw0

theorem stateInv_upgradeArmor (armorId : String) (s : GameState) (h : StateInv s) :
    StateInv (upgradeArmor armorId s) := by
  unfold upgradeArmor
  split
  · exact h
  · rename_i armor hf
    split
    · exact h
    · rename_i hle
      refine ⟨h.coins_nonneg, ?_, h.shiny_nonneg, h.zone_pos, h.streak_nonneg,
        h.mult_ge_one, h.offlineCoins_nonneg, h.offlineGems_nonneg, h.daily_none,
        h.weapons_price, ?_⟩
      · show 0 ≤ s.gems - armor.upgradeCost
        exact sub_nonneg.mpr (not_lt.mp hle)
      · intro a ha
        obtain ⟨a0, ha0, rfl⟩ := List.mem_map.mp ha
        by_cases hid : (a0.id == armorId) = true
        · rw [if_pos hid]; exact h.armor_price a0 ha0
        · rw [if_neg hid]; exact h.armor_price a0 ha0

theorem stateInv_sellWeapon (weaponId : String) (s : GameState) (h : StateInv s) :
    StateInv (sellWeapon weaponId s) := by
  unfold sellWeapon
  split
  · exact h
  · rename_i weapon hf
    split
    · exact h
    · have hp : 0 ≤ weapon.sellPrice :=
        h.weapons_price weapon (List.mem_of_find?_eq_some hf)
      refine ⟨?_, h.gems_nonneg, h.shiny_nonneg, h.zone_pos, h.streak_nonneg,
        h.mult_ge_one, h.offlineCoins_nonneg, h.offlineGems_nonneg, h.daily_none,
        ?_, h.armor_price⟩
      · show 0 ≤ s.coins + weapon.sellPrice
        have := h.coins_nonneg; linarith
      · intro w hw
        exact h.weapons_price w (List.mem_of_mem_filter hw)

theorem stateInv_sellArmor (armorId : String) (s : GameState) (h : StateInv s) :
    StateInv (sellArmor armorId s) := by
  unfold sellArmor
  split
  · exact h
  · rename_i armor hf
    split
    · exact h
    · have hp : 0 ≤ armor.sellPrice :=
        h.armor_price armor (List.mem_of_find?_eq_some hf)
      refine ⟨?_, h.gems_nonneg, h.shiny_nonneg, h.zone_pos, h.streak_nonneg,
        h.mult_ge_one, h.offlineCoins_nonneg, h.offlineGems_nonneg, h.daily_none,
        h.weapons_price, ?_⟩
      · show 0 ≤ s.coins + armor.sellPrice
        have := h.coins_nonneg; linarith
      · intro a ha
        exact h.armor_price a (List.mem_of_mem_filter ha)

theorem stateInv_upgradeResearch (cost : ℚ) (s : GameState) (h : StateInv s) :
    StateInv (upgradeResearch cost s) := by
  unfold upgradeResearch
  split
  · exact h
  · rename_i hle
    refine ⟨?_, h.gems_nonneg, h.shiny_nonneg, h.zone_pos, h.streak_nonneg,
      h.mult_ge_one, h.offlineCoins_nonneg, h.offlineGems_nonneg, h.daily_none,
      h.weapons_price, h.armor_price⟩
    show 0 ≤ s.coins - cost
    exact sub_nonneg.mpr (not_lt.mp hle)

theorem stateInv_openChest (cost : ℚ) (weights : List ℚ) (random : ℚ)
    (isWeaponRoll : ℚ) (witem : Weapon) (aitem : Armor) (gemRand : ℚ)
    (s : GameState) (hgr : 0 ≤ gemRand) (hwp : 0 ≤ witem.sellPrice)
    (hap : 0 ≤ aitem.sellPrice) (h : StateInv s) :
    StateInv (openChest cost weights random isWeaponRoll witem aitem gemRand s) := by
  have hfl : (0 : ℚ) ≤ (⌊gemRand * 10⌋ : ℤ) := by
    exact_mod_cast Int.floor_nonneg.mpr (by positivity)
  unfold openChest
  split
  · exact h
  · rename_i hle
    have hcoins : 0 ≤ s.coins - cost := sub_nonneg.mpr (not_lt.mp hle)
    have hgems : 0 ≤ s.gems + (⌊gemRand * 10⌋ : ℚ) + 5 := by
      have := h.gems_nonneg; linarith
    dsimp only
    split
    · refine ⟨hcoins, hgems, h.shiny_nonneg, h.zone_pos, h.streak_nonneg,
        h.mult_ge_one, h.offlineCoins_nonneg, h.offlineGems_nonneg, h.daily_none,
        ?_, h.armor_price⟩
      intro w hw
      rcases List.mem_append.mp hw with hw | hw
      · exact h.weapons_price w hw
      · rw [List.mem_singleton.mp hw]; exact hwp
    · refine ⟨hcoins, hgems, h.shiny_nonneg, h.zone_pos, h.streak_nonneg,
        h.mult_ge_one, h.offlineCoins_nonneg, h.offlineGems_nonneg, h.daily_none,
        h.weapons_price, ?_⟩
      intro a ha
      rcases List.mem_append.mp ha with ha | ha
      · exact h.armor_price a ha
      · rw [List.mem_singleton.mp ha]; exact hap

theorem stateInv_purchaseMythical (cost roll : ℚ) (witem : Weapon) (aitem : Armor)
    (s : GameState) (hwp : 0 ≤ witem.sellPrice) (hap : 0 ≤ aitem.sellPrice)
    (h : StateInv s) : StateInv (purchaseMythical cost roll witem aitem s) := by
  unfold purchaseMythical
  split
  · exact h
  · rename_i hle
    have hcoins : 0 ≤ s.coins - cost := sub_nonneg.mpr (not_lt.mp hle)
    dsimp only
    split
    · refine ⟨hcoins, h.gems_nonneg, h.shiny_nonneg, h.zone_pos, h.streak_nonneg,
        h.mult_ge_one, h.offlineCoins_nonneg, h.offlineGems_nonneg, h.daily_none,
        ?_, h.armor_price⟩
      intro w hw
      rcases List.mem_append.mp hw with hw | hw
      · exact h.weapons_price w hw
      · rw [List.mem_singleton.mp hw]; exact hwp
    · refine ⟨hcoins, h.gems_nonneg, h.shiny_nonneg, h.zone_pos, h.streak_nonneg,
        h.mult_ge_one, h.offlineCoins_nonneg, h.offlineGems_nonneg, h.daily_none,
        h.weapons_price, ?_⟩
      intro a ha
      rcases List.mem_append.mp ha with ha | ha
      · exact h.armor_price a ha
      · rw [List.mem_singleton.mp ha]; exact hap

theorem stateInv_startCombat (skills : List AdventureSkill) (s : GameState)
    (h : StateInv s) : StateInv (startCombat skills s) :=
  h.carry rfl rfl rfl rfl rfl rfl rfl rfl rfl

theorem stateInv_selectAdventureSkill (skill : AdventureSkill) (enemy : Enemy)
    (r1 r2 r3 : ℚ) (s : GameState) (h : StateInv s) :
    StateInv (selectAdventureSkill skill enemy r1 r2 r3 s) :=
  h.carry rfl rfl rfl rfl rfl rfl rfl rfl rfl

theorem stateInv_skipAdventureSkills (enemy : Enemy) (s : GameState)
    (h : StateInv s) : StateInv (skipAdventureSkills enemy s) :=
  h.carry rfl rfl rfl rfl rfl rfl rfl rfl rfl

theorem stateInv_useSkipCard (s : GameState) (h : StateInv s) :
    StateInv (useSkipCard s) :=
  h.carry rfl rfl rfl rfl rfl rfl rfl rfl rfl

theorem stateInv_setGameMode (mode : String) (s : GameState) (h : StateInv s) :
    StateInv (setGameMode mode s) :=
  h.carry rfl rfl rfl rfl rfl rfl rfl rfl rfl

theorem stateInv_toggleCheat (key : CheatKey) (s : GameState) (h : StateInv s) :
    StateInv (toggleCheat key s) :=
  h.carry rfl rfl rfl rfl rfl rfl rfl rfl rfl

theorem stateInv_mineGem (isShinyNode : Bool) (s : GameState) (h : StateInv s) :
    StateInv (mineGem isShinyNode s) := by
  unfold mineGem
  split
  · refine ⟨h.coins_nonneg, h.gems_nonneg, ?_, h.zone_pos, h.streak_nonneg,
      h.mult_ge_one, h.offlineCoins_nonneg, h.offlineGems_nonneg, h.daily_none,
      h.weapons_price, h.armor_price⟩
    show 0 ≤ s.shinyGems + 1
    have := h.shiny_nonneg; linarith
  · refine ⟨h.coins_nonneg, ?_, h.shiny_nonneg, h.zone_pos, h.streak_nonneg,
      h.mult_ge_one, h.offlineCoins_nonneg, h.offlineGems_nonneg, h.daily_none,
      h.weapons_price, h.armor_price⟩
    show 0 ≤ s.gems + 1
    have := h.gems_nonneg; linarith

theorem stateInv_exchangeShinyGems (amount : ℚ) (s : GameState)
    (hamt : 0 ≤ amount) (h : StateInv s) :
    StateInv (exchangeShinyGems amount s) := by
  unfold exchangeShinyGems
  split
  · exact h
  · rename_i hle
    refine ⟨h.coins_nonneg, ?_, ?_, h.zone_pos, h.streak_nonneg,
      h.mult_ge_one, h.offlineCoins_nonneg, h.offlineGems_nonneg, h.daily_none,
      h.weapons_price, h.armor_price⟩
    · show 0 ≤ s.gems + amount * 10
      have := h.gems_nonneg; nlinarith
    · show 0 ≤ s.shinyGems - amount
      exact sub_nonneg.mpr (not_lt.mp hle)

theorem stateInv_discardItem (itemId : String) (isWeapon : Bool) (s : GameState)
    (h : StateInv s) : StateInv (discardItem itemId isWeapon s) := by
  unfold discardItem
  split
  · refine ⟨h.coins_nonneg, h.gems_nonneg, h.shiny_nonneg, h.zone_pos,
      h.streak_nonneg, h.mult_ge_one, h.offlineCoins_nonneg, h.offlineGems_nonneg,
      h.daily_none, ?_, h.armor_price⟩
    intro w hw
    exact h.weapons_price w (List.mem_of_mem_filter hw)
  · refine ⟨h.coins_nonneg, h.gems_nonneg, h.shiny_nonneg, h.zone_pos,
      h.streak_nonneg, h.mult_ge_one, h.offlineCoins_nonneg, h.offlineGems_nonneg,
      h.daily_none, h.weapons_price, ?_⟩
    intro a ha
    exact h.armor_price a (List.mem_of_mem_filter ha)

theorem stateInv_purchaseRelic (relicId : String) (s : GameState) (h : StateInv s) :
    StateInv (purchaseRelic relicId s) := by
  unfold purchaseRelic
  split
  · exact h
  · rename_i relic hf
    split
    · exact h
    · rename_i hguard
      have hle : relic.cost ≤ s.gems := not_lt.mp (fun hlt => hguard (Or.inl hlt))
      refine ⟨h.coins_nonneg, ?_, h.shiny_nonneg, h.zone_pos, h.streak_nonneg,
        h.mult_ge_one, h.offlineCoins_nonneg, h.offlineGems_nonneg, h.daily_none,
        h.weapons_price, h.armor_price⟩
      show 0 ≤ s.gems - relic.cost
      exact sub_nonneg.mpr hle

theorem stateInv_upgradeRelic (relicId : String) (s : GameState) (h : StateInv s) :
    StateInv (upgradeRelic relicId s) := by
  unfold upgradeRelic
  split
  · exact h
  · rename_i relic hf
    split
    · exact h
    · rename_i hle
      refine ⟨h.coins_nonneg, ?_, h.shiny_nonneg, h.zone_pos, h.streak_nonneg,
        h.mult_ge_one, h.offlineCoins_nonneg, h.offlineGems_nonneg, h.daily_none,
        h.weapons_price, h.armor_price⟩
      show 0 ≤ s.gems - relic.upgradeCost
      exact sub_nonneg.mpr (not_lt.mp hle)

theorem stateInv_equipRelic (relicId : String) (s : GameState) (h : StateInv s) :
    StateInv (equipRelic relicId s) := by
  unfold equipRelic
  split
  · exact h
  · rename_i relic hf
    split
    · exact h
    · exact h.carry rfl rfl rfl rfl rfl rfl rfl rfl rfl

theorem stateInv_unequipRelic (relicId : String) (s : GameState) (h : StateInv s) :
    StateInv (unequipRelic relicId s) :=
  h.carry rfl rfl rfl rfl rfl rfl rfl rfl rfl

theorem stateInv_sellRelic (relicId : String) (s : GameState) (h : StateInv s) :
    StateInv (sellRelic relicId s) :=
  h.carry rfl rfl rfl rfl rfl rfl rfl rfl rfl

theorem stateInv_claimDailyReward (now : ℚ) (s : GameState) (h : StateInv s) :
    StateInv (claimDailyReward now s) := by
  unfold claimDailyReward
  rw [h.daily_none]
  exact h

theorem stateInv_claimOfflineRewards (s : GameState) (h : StateInv s) :
    StateInv (claimOfflineRewards s) := by
  refine ⟨?_, ?_, h.shiny_nonneg, h.zone_pos, h.streak_nonneg,
    h.mult_ge_one, ?_, ?_, h.daily_none, h.weapons_price, h.armor_price⟩
  · show 0 ≤ s.coins + s.offlineProgress.offlineCoins
    have := h.coins_nonneg; have := h.offlineCoins_nonneg; linarith
  · show 0 ≤ s.gems + s.offlineProgress.offlineGems
    have := h.gems_nonneg; have := h.offlineGems_nonneg; linarith
  · show (0 : ℚ) ≤ 0
    exact le_refl 0
  · show (0 : ℚ) ≤ 0
    exact le_refl 0

theorem stateInv_bulkSell (itemIds : List String) (isWeapon : Bool) (s : GameState)
    (h : StateInv s) : StateInv (bulkSell itemIds isWeapon s) := by
  unfold bulkSell
  split
  · have htot : 0 ≤ sellTotal Weapon.sellPrice
        (s.inventory.weapons.filter (fun w =>
          itemIds.contains w.id && ¬currentWeaponIs s w.id)) := by
      refine sellTotal_nonneg _ _ ?_
      intro w hw
      exact h.weapons_price w (List.mem_of_mem_filter hw)
    refine ⟨?_, h.gems_nonneg, h.shiny_nonneg, h.zone_pos, h.streak_nonneg,
      h.mult_ge_one, h.offlineCoins_nonneg, h.offlineGems_nonneg, h.daily_none,
      ?_, h.armor_price⟩
    · have := h.coins_nonneg
      show 0 ≤ s.coins + sellTotal Weapon.sellPrice _
      linarith
    · intro w hw
      exact h.weapons_price w (List.mem_of_mem_filter hw)
  · have htot : 0 ≤ sellTotal Armor.sellPrice
        (s.inventory.armor.filter (fun a =>
          itemIds.contains a.id && ¬currentArmorIs s a.id)) := by
      refine sellTotal_nonneg _ _ ?_
      intro a ha
      exact h.armor_price a (List.mem_of_mem_filter ha)
    refine ⟨?_, h.gems_nonneg, h.shiny_nonneg, h.zone_pos, h.streak_nonneg,
      h.mult_ge_one, h.offlineCoins_nonneg, h.offlineGems_nonneg, h.daily_none,
      h.weapons_price, ?_⟩
    · have := h.coins_nonneg
      show 0 ≤ s.coins + sellTotal Armor.sellPrice _
      linarith
    · intro a ha
      exact h.armor_price a (List.mem_of_mem_filter ha)

theorem stateInv_bulkUpgrade (itemIds : List String) (isWeapon : Bool) (s : GameState)
    (h : StateInv s) : StateInv (bulkUpgrade itemIds isWeapon s) := by
  unfold bulkUpgrade
  split
  · dsimp only
    split
    · exact h
    · rename_i hle
      refine ⟨h.coins_nonneg, ?_, h.shiny_nonneg, h.zone_pos, h.streak_nonneg,
        h.mult_ge_one, h.offlineCoins_nonneg, h.offlineGems_nonneg, h.daily_none,
        ?_, h.armor_price⟩
      · exact sub_nonneg.mpr (not_lt.mp hle)
      · intro w hw
        obtain ⟨w0, hw0, rfl⟩ := List.mem_map.mp hw
        by_cases hid : (itemIds.contains w0.id) = true
        · rw [if_pos hid]; exact h.weapons_price w0 hw0
        · rw [if_neg hid]; exact h.weapons_price w0 hw0
  · dsimp only
    split
    · exact h
    · rename_i hle
      refine ⟨h.coins_nonneg, ?_, h.shiny_nonneg, h.zone_pos, h.streak_nonneg,
        h.mult_ge_one, h.offlineCoins_nonneg, h.offlineGems_nonneg, h.daily_none,
        h.weapons_price, ?_⟩
      · exact sub_nonneg.mpr (not_lt.mp hle)
      · intro a ha
        obtain ⟨a0, ha0, rfl⟩ := List.mem_map.mp ha
        by_cases hid : (itemIds.contains a0.id) = true
        · rw [if_pos hid]; exact h.armor_price a0 ha0
        · rw [if_neg hid]; exact h.armor_price a0 ha0

theorem stateInv_plantSeed (now : ℚ) (s : GameState) (h : StateInv s) :
    StateInv (plantSeed now s) := by
  unfold plantSeed
  split
  · exact h
  · rename_i hguard
    push_neg at hguard
    refine ⟨?_, h.gems_nonneg, h.shiny_nonneg, h.zone_pos, h.streak_nonneg,
      h.mult_ge_one, h.offlineCoins_nonneg, h.offlineGems_nonneg, h.daily_none,
      h.weapons_price, h.armor_price⟩
    show 0 ≤ s.coins - s.gardenOfGrowth.seedCost
    exact sub_nonneg.mpr hguard.1

theorem stateInv_buyWater (hours : ℚ) (s : GameState) (h : StateInv s) :
    StateInv (buyWater hours s) := by
  unfold buyWater
  dsimp only
  split
  · exact h
  · rename_i hle
    refine ⟨?_, h.gems_nonneg, h.shiny_nonneg, h.zone_pos, h.streak_nonneg,
      h.mult_ge_one, h.offlineCoins_nonneg, h.offlineGems_nonneg, h.daily_none,
      h.weapons_price, h.armor_price⟩
    exact sub_nonneg.mpr (not_lt.mp hle)

theorem stateInv_updateSettings (p : SettingsPatch) (s : GameState) (h : StateInv s) :
    StateInv (updateSettings p s) :=
  h.carry rfl rfl rfl rfl rfl rfl rfl rfl rfl

theorem stateInv_addCoins (amount : ℚ) (s : GameState) (hamt : 0 ≤ amount)
    (h : StateInv s) : StateInv (addCoins amount s) := by
  refine ⟨?_, h.gems_nonneg, h.shiny_nonneg, h.zone_pos, h.streak_nonneg,
    h.mult_ge_one, h.offlineCoins_nonneg, h.offlineGems_nonneg, h.daily_none,
    h.weapons_price, h.armor_price⟩
  show 0 ≤ s.coins + amount
  have := h.coins_nonneg; linarith

theorem stateInv_addGems (amount : ℚ) (s : GameState) (hamt : 0 ≤ amount)
    (h : StateInv s) : StateInv (addGems amount s) := by
  refine ⟨h.coins_nonneg, ?_, h.shiny_nonneg, h.zone_pos, h.streak_nonneg,
    h.mult_ge_one, h.offlineCoins_nonneg, h.offlineGems_nonneg, h.daily_none,
    h.weapons_price, h.armor_price⟩
  show 0 ≤ s.gems + amount
  have := h.gems_nonneg; linarith

theorem stateInv_teleportToZone (zone : ℚ) (s : GameState) (h : StateInv s) :
    StateInv (teleportToZone zone s) := by
  refine ⟨h.coins_nonneg, h.gems_nonneg, h.shiny_nonneg, ?_, h.streak_nonneg,
    h.mult_ge_one, h.offlineCoins_nonneg, h.offlineGems_nonneg, h.daily_none,
    h.weapons_price, h.armor_price⟩
  show 1 ≤ max 1 zone
  exact le_max_left 1 zone

theorem stateInv_setExperience (xp : ℚ) (s : GameState) (h : StateInv s) :
    StateInv (setExperience xp s) :=
  h.carry rfl rfl rfl rfl rfl rfl rfl rfl rfl

theorem stateInv_rollSkill (rand : ℚ) (idStr : String) (now : ℚ) (s : GameState)
    (h : StateInv s) : StateInv (rollSkill rand idStr now s) := by
  unfold rollSkill
  split
  · exact h
  · rename_i hle
    refine ⟨?_, h.gems_nonneg, h.shiny_nonneg, h.zone_pos, h.streak_nonneg,
      h.mult_ge_one, h.offlineCoins_nonneg, h.offlineGems_nonneg, h.daily_none,
      h.weapons_price, h.armor_price⟩
    show 0 ≤ s.coins - 100
    exact sub_nonneg.mpr (not_lt.mp hle)

theorem stateInv_attackPhase1 (hit : Bool) (category : Option String) (e : Enemy)
    (s : GameState) (h : StateInv s) : StateInv (attackPhase1 hit category e s) := by
  unfold attackPhase1
  split
  · dsimp only
    refine ⟨h.coins_nonneg, h.gems_nonneg, h.shiny_nonneg, h.zone_pos, ?_, ?_,
      h.offlineCoins_nonneg, h.offlineGems_nonneg, h.daily_none,
      h.weapons_price, h.armor_price⟩
    · show 0 ≤ s.knowledgeStreak.current + 1
      have := h.streak_nonneg; linarith
    · show 1 ≤ 1 + (s.knowledgeStreak.current + 1) * 0.1
      have h0 := h.streak_nonneg
      have h1 : (0 : ℚ) ≤ (s.knowledgeStreak.current + 1) * 0.1 := by
        apply mul_nonneg <;> [linarith; norm_num]
      linarith
  · dsimp only
    split
    · refine ⟨h.coins_nonneg, h.gems_nonneg, h.shiny_nonneg, h.zone_pos, ?_, ?_,
        h.offlineCoins_nonneg, h.offlineGems_nonneg, h.daily_none,
        h.weapons_price, h.armor_price⟩
      · show (0 : ℚ) ≤ 0
        exact le_refl 0
      · show (1 : ℚ) ≤ 1
        exact le_refl 1
    · refine ⟨h.coins_nonneg, h.gems_nonneg, h.shiny_nonneg, h.zone_pos, ?_, ?_,
        h.offlineCoins_nonneg, h.offlineGems_nonneg, h.daily_none,
        h.weapons_price, h.armor_price⟩
      · show (0 : ℚ) ≤ 0
        exact le_refl 0
      · show (1 : ℚ) ≤ 1
        exact le_refl 1

theorem stateInv_attackVictory (s : GameState) (h : StateInv s) :
    StateInv (attackVictory s) := by
  unfold attackVictory
  split
  · exact h
  · split
    · dsimp only
      have hz := h.zone_pos
      have hm := h.mult_ge_one
      have hcr : (0 : ℚ) ≤ (⌊(10 + s.zone * 2) * s.knowledgeStreak.multiplier⌋ : ℚ) := by
        have hx : (0 : ℚ) ≤ (10 + s.zone * 2) * s.knowledgeStreak.multiplier := by nlinarith
        exact_mod_cast Int.floor_nonneg.mpr hx
      have hgr : (0 : ℚ) ≤ (⌊(1 + (⌊s.zone / 5⌋ : ℚ)) * s.knowledgeStreak.multiplier⌋ : ℚ) := by
        have h5 : (0 : ℚ) ≤ (⌊s.zone / 5⌋ : ℚ) := by
          have hq : (0 : ℚ) ≤ s.zone / 5 := by linarith
          exact_mod_cast Int.floor_nonneg.mpr hq
        have hx : (0 : ℚ) ≤ (1 + (⌊s.zone / 5⌋ : ℚ)) * s.knowledgeStreak.multiplier := by
          nlinarith
        exact_mod_cast Int.floor_nonneg.mpr hx
      refine ⟨?_, ?_, h.shiny_nonneg, ?_, h.streak_nonneg, h.mult_ge_one,
        h.offlineCoins_nonneg, h.offlineGems_nonneg, h.daily_none,
        h.weapons_price, h.armor_price⟩
      · show 0 ≤ s.coins + (⌊(10 + s.zone * 2) * s.knowledgeStreak.multiplier⌋ : ℚ)
        have := h.coins_nonneg; linarith
      · show 0 ≤ s.gems + (⌊(1 + (⌊s.zone / 5⌋ : ℚ)) * s.knowledgeStreak.multiplier⌋ : ℚ)
        have := h.gems_nonneg; linarith
      · show 1 ≤ s.zone + 1
        linarith
    · exact h

theorem stateInv_attackDefeat (s : GameState) (h : StateInv s) :
    StateInv (attackDefeat s) := by
  unfold attackDefeat
  split
  · split
    · exact h.carry rfl rfl rfl rfl rfl rfl rfl rfl rfl
    · split
      · exact h.carry rfl rfl rfl rfl rfl rfl rfl rfl rfl
      · exact h.carry rfl rfl rfl rfl rfl rfl rfl rfl rfl
  · exact h

theorem stateInv_attack (hit : Bool) (category : Option String) (s : GameState)
    (h : StateInv s) : StateInv (attack hit category s) := by
  unfold attack
  split
  · exact h
  · rename_i e he
    exact stateInv_attackDefeat _
      (stateInv_attackVictory _ (stateInv_attackPhase1 hit category e s h))

theorem stateInv_resetGame (now : ℚ) (ach : List Achievement) (tags : List PlayerTag)
    (s : GameState) : StateInv (resetGame now ach tags s) :=
  stateInv_init now ach tags

/-- One valid public operation preserves the resource invariant. -/
theorem stateInv_step (op : Op) (s : GameState) (hv : op.Valid) (h : StateInv s) :
    StateInv (step op s) := by
  cases op with
  | equipWeapon w => exact stateInv_equipWeapon w s h
  | equipArmor a => exact stateInv_equipArmor a s h
  | upgradeWeapon weaponId => exact stateInv_upgradeWeapon weaponId s h
  | upgradeArmor armorId => exact stateInv_upgradeArmor armorId s h
  | sellWeapon weaponId => exact stateInv_sellWeapon weaponId s h
  | sellArmor armorId => exact stateInv_sellArmor armorId s h
  | upgradeResearch cost => exact stateInv_upgradeResearch cost s h
  | openChest cost weights random isWeaponRoll witem aitem gemRand =>
    obtain ⟨-, -, -, -, hgr, -, hwp, hap⟩ := hv
    exact stateInv_openChest cost weights random isWeaponRoll witem aitem gemRand s
      hgr hwp hap h
  | purchaseMythical cost roll witem aitem =>
    obtain ⟨-, -, hwp, hap⟩ := hv
    exact stateInv_purchaseMythical cost roll witem aitem s hwp hap h
  | startCombat skills => exact stateInv_startCombat skills s h
  | selectAdventureSkill skill enemy r1 r2 r3 =>
    exact stateInv_selectAdventureSkill skill enemy r1 r2 r3 s h
  | skipAdventureSkills enemy => exact stateInv_skipAdventureSkills enemy s h
  | useSkipCard => exact stateInv_useSkipCard s h
  | attack hit category => exact stateInv_attack hit category s h
  | resetGame now ach tags => exact stateInv_resetGame now ach tags s
  | setGameMode mode => exact stateInv_setGameMode mode s h
  | toggleCheat key => exact stateInv_toggleCheat key s h
  | mineGem isShinyNode => exact stateInv_mineGem isShinyNode s h
  | exchangeShinyGems amount => exact stateInv_exchangeShinyGems amount s hv h
  | discardItem itemId isWeapon => exact stateInv_discardItem itemId isWeapon s h
  | purchaseRelic relicId => exact stateInv_purchaseRelic relicId s h
  | upgradeRelic relicId => exact stateInv_upgradeRelic relicId s h
  | equipRelic relicId => exact stateInv_equipRelic relicId s h
  | unequipRelic relicId => exact stateInv_unequipRelic relicId s h
  | sellRelic relicId => exact stateInv_sellRelic relicId s h
  | claimDailyReward now => exact stateInv_claimDailyReward now s h
  | claimOfflineRewards => exact stateInv_claimOfflineRewards s h
  | bulkSell itemIds isWeapon => exact stateInv_bulkSell itemIds isWeapon s h
  | bulkUpgrade itemIds isWeapon => exact stateInv_bulkUpgrade itemIds isWeapon s h
  | plantSeed now => exact stateInv_plantSeed now s h
  | buyWater hours => exact stateInv_buyWater hours s h
  | updateSettings p => exact stateInv_updateSettings p s h
  | addCoins amount => exact stateInv_addCoins amount s hv h
  | addGems amount => exact stateInv_addGems amount s hv h
  | teleportToZone zone => exact stateInv_teleportToZone zone s h
  | setExperience xp => exact stateInv_setExperience xp s h
  | rollSkill rand idStr now => exact stateInv_rollSkill rand idStr now s h

/-- A sequence of valid public operations preserves the resource invariant. -/
theorem stateInv_runOps (ops : List Op) (s : GameState)
    (hv : ∀ op ∈ ops, op.Valid) (h : StateInv s) : StateInv (runOps ops s) := by
  induction ops generalizing s with
  | nil => exact h
  | cons op rest ih =>
    exact ih (step op s) (fun o ho => hv o (List.mem_cons_of_mem op ho))
      (stateInv_step op s (hv op (List.mem_cons_self op rest)) h)

/-! ## Upgrade cost scaling (claim C7) -/

/-- One level-up of the upgrade cost: `floor(cost * 1.5)`, the uniform rule of
`upgradeWeapon`, `upgradeArmor`, `upgradeRelic` and `bulkUpgrade`. -/
def costStep (x : ℚ) : ℚ := (⌊x * 1.5⌋ : ℚ)

/-- Look up an owned weapon by id (the `find?` of the source operations). -/
def getWeapon (s : GameState) (id : String) : Option Weapon :=
  s.inventory.weapons.find? (fun w => w.id == id)

/-- Look up an owned armor piece by id. -/
def getArmorItem (s : GameState) (id : String) : Option Armor :=
  s.inventory.armor.find? (fun a => a.id == id)

/-- Look up an owned relic by id. -/
def getRelic (s : GameState) (id : String) : Option RelicItem :=
  s.inventory.relics.find? (fun r => r.id == id)

theorem upgradeWeapon_cost (s : GameState) (id : String) (w : Weapon)
    (hf : getWeapon s id = some w) (hgems : w.upgradeCost ≤ s.gems) :
    getWeapon (upgradeWeapon id s) id
      = some { w with level := w.level + 1, upgradeCost := costStep w.upgradeCost } := by
  unfold getWeapon at hf
  unfold upgradeWeapon
  rw [hf]
  dsimp only
  rw [if_neg (not_lt.mpr hgems)]
  unfold getWeapon
  dsimp only
  have hmain := find?_map_update (fun (x : Weapon) => x.id == id)
    (fun x => { x with level := x.level + 1, upgradeCost := (⌊x.upgradeCost * 1.5⌋ : ℚ) })
    (fun x => rfl) s.inventory.weapons
  rw [hf] at hmain
  exact hmain

theorem upgradeArmor_cost (s : GameState) (id : String) (a : Armor)
    (hf : getArmorItem s id = some a) (hgems : a.upgradeCost ≤ s.gems) :
    getArmorItem (upgradeArmor id s) id
      = some { a with level := a.level + 1, upgradeCost := costStep a.upgradeCost } := by
  unfold getArmorItem at hf
  unfold upgradeArmor
  rw [hf]
  dsimp only
  rw [if_neg (not_lt.mpr hgems)]
  unfold getArmorItem
  dsimp only
  have hmain := find?_map_update (fun (x : Armor) => x.id == id)
    (fun x => { x with level := x.level + 1, upgradeCost := (⌊x.upgradeCost * 1.5⌋ : ℚ) })
    (fun x => rfl) s.inventory.armor
  rw [hf] at hmain
  exact hmain

theorem upgradeRelic_cost (s : GameState) (id : String) (r : RelicItem)
    (hf : getRelic s id = some r) (hgems : r.upgradeCost ≤ s.gems) :
    ∃ r1, getRelic (upgradeRelic id s) id = some r1 ∧
      r1.upgradeCost = costStep r.upgradeCost ∧ r1.level = r.level + 1 := by
  unfold getRelic at hf
  unfold upgradeRelic
  rw [hf]
  dsimp only
  rw [if_neg (not_lt.mpr hgems)]
  unfold getRelic
  dsimp only
  have hmain := find?_map_update (fun (x : RelicItem) => x.id == id)
    (fun x =>
      { x with
        level := x.level + 1
        upgradeCost := (⌊x.upgradeCost * 1.5⌋ : ℚ)
        baseAtk := match x.baseAtk with
          | some v => if v == 0 then none else some (v + 22)
          | none => none
        baseDef := match x.baseDef with
          | some v => if v == 0 then none else some (v + 15)
          | none => none })
    (fun x => rfl) s.inventory.relics
  rw [hf] at hmain
  exact ⟨_, hmain, rfl, rfl⟩

/-- `UpgradeOk s id`: the guarded weapon upgrade succeeds at `s`. -/
def UpgradeOk (s : GameState) (id : String) : Prop :=
  ∃ w, getWeapon s id = some w ∧ w.upgradeCost ≤ s.gems

theorem upgradeWeapon_iterate (id : String) (k : ℕ) :
    ∀ (s : GameState) (w0 : Weapon),
      (∀ i < k, UpgradeOk ((upgradeWeapon id)^[i] s) id) →
      getWeapon s id = some w0 →
      ∃ w, getWeapon ((upgradeWeapon id)^[k] s) id = some w ∧
        w.upgradeCost = costStep^[k] w0.upgradeCost ∧
        w.level = w0.level + (k : ℚ) := by
  induction k with
  | zero =>
    intro s w0 _ h0
    exact ⟨w0, h0, rfl, by push_cast; ring⟩
  | succ n ih =>
    intro s w0 hok h0
    obtain ⟨w1, hw1, hcost, hlevel⟩ :=
      ih s w0 (fun i hi => hok i (Nat.lt_succ_of_lt hi)) h0
    obtain ⟨w2, hw2, hgems⟩ := hok n (Nat.lt_succ_self n)
    rw [hw1] at hw2
    obtain rfl : w2 = w1 := by injection hw2 with h; exact h.symm
    rw [Function.iterate_succ_apply']
    refine ⟨_, upgradeWeapon_cost _ id w2 hw1 hgems, ?_, ?_⟩
    · show costStep w2.upgradeCost = costStep^[n + 1] w0.upgradeCost
      rw [Function.iterate_succ_apply', hcost]
    · show w2.level + 1 = w0.level + ((n + 1 : ℕ) : ℚ)
      rw [hlevel]; push_cast; ring

/-- C7: for weapons, armor and relics alike, every successful upgrade turns
`upgradeCost` into `floor(upgradeCost * 1.5)` and raises `level` by one;
consequently after `k` successful upgrades of a weapon the cost is the
`k`-fold iterate of `x ↦ floor(x * 1.5)` on the initial cost — stepwise
flooring, which differs from a single pow-then-floor (witnessed at cost 5,
`k = 2`: iterated 10, pow-then-floor 11). -/
theorem C7_upgrade_cost_scaling :
    (∀ (s : GameState) (id : String) (w : Weapon),
      getWeapon s id = some w → w.upgradeCost ≤ s.gems →
      getWeapon (upgradeWeapon id s) id
        = some { w with level := w.level + 1, upgradeCost := costStep w.upgradeCost }) ∧
    (∀ (s : GameState) (id : String) (a : Armor),
      getArmorItem s id = some a → a.upgradeCost ≤ s.gems →
      getArmorItem (upgradeArmor id s) id
        = some { a with level := a.level + 1, upgradeCost := costStep a.upgradeCost }) ∧
    (∀ (s : GameState) (id : String) (r : RelicItem),
      getRelic s id = some r → r.upgradeCost ≤ s.gems →
      ∃ r1, getRelic (upgradeRelic id s) id = some r1 ∧
        r1.upgradeCost = costStep r.upgradeCost ∧ r1.level = r.level + 1) ∧
    (∀ (id : String) (k : ℕ) (s : GameState) (w0 : Weapon),
      (∀ i < k, UpgradeOk ((upgradeWeapon id)^[i] s) id) →
      getWeapon s id = some w0 →
      ∃ w, getWeapon ((upgradeWeapon id)^[k] s) id = some w ∧
        w.upgradeCost = costStep^[k] w0.upgradeCost ∧
        w.level = w0.level + (k : ℚ)) ∧
    (costStep^[2] 5 = 10 ∧ (⌊(5 : ℚ) * 1.5 ^ 2⌋ : ℚ) = 11) :=
  ⟨upgradeWeapon_cost, upgradeArmor_cost, upgradeRelic_cost,
    fun id k => upgradeWeapon_iterate id k,
    by constructor
       · show costStep (costStep 5) = 10
         unfold costStep; norm_num
       · norm_num⟩

/-! ## Chest rarity selection (claim C8) -/

theorem raritySelectGo_spec (random : ℚ) (rars : List String) :
    ∀ (ws : List ℚ) (i : ℕ) (i0 : ℕ) (cum : ℚ) (sel : Option String),
      i < ws.length →
      random ≤ cum + (ws.take (i + 1)).sum →
      (∀ j < i, ¬ random ≤ cum + (ws.take (j + 1)).sum) →
      raritySelectGo random rars ws i0 cum sel = rars.get? (i0 + i) := by
  intro ws
  induction ws with
  | nil =>
    intro i i0 cum sel hi hle hprev
    exact absurd hi (by simp)
  | cons w ws ih =>
    intro i i0 cum sel hi hle hprev
    cases i with
    | zero =>
      have hcond : random ≤ cum + w := by simpa using hle
      unfold raritySelectGo
      rw [if_pos hcond]
      simp
    | succ i =>
      have hnot : ¬ random ≤ cum + w := by
        have h0 := hprev 0 (Nat.succ_pos i)
        simpa using h0
      unfold raritySelectGo
      rw [if_neg hnot]
      have htake : ((w :: ws).take (i + 2)).sum = w + (ws.take (i + 1)).sum := by
        simp
      have hle' : random ≤ (cum + w) + (ws.take (i + 1)).sum := by
        rw [htake] at hle; linarith
      have hprev' : ∀ j < i, ¬ random ≤ (cum + w) + (ws.take (j + 1)).sum := by
        intro j hj
        have hj1 := hprev (j + 1) (Nat.succ_lt_succ hj)
        have ht : ((w :: ws).take (j + 2)).sum = w + (ws.take (j + 1)).sum := by simp
        rw [ht] at hj1
        intro hcon
        exact hj1 (by linarith)
      have hrec := ih i (i0 + 1) (cum + w) sel (by simpa using hi) hle' hprev'
      rw [hrec]
      congr 1
      omega

/-- C8: `openChest` draws the rarity by a cumulative-weight scan over
[common, rare, epic, legendary, mythical]: the chosen rarity is the one at
the first index whose running cumulative weight reaches the draw value; in
particular with weights [70, 20, 7, 2, 1] and draw value 71 the selection is
`rare` (cumulative 70 < 71 ≤ 90). -/
theorem C8_chest_rarity_selection :
    (∀ (weights : List ℚ) (random : ℚ) (i : ℕ),
      i < weights.length →
      random ≤ (weights.take (i + 1)).sum →
      (∀ j < i, ¬ random ≤ (weights.take (j + 1)).sum) →
      raritySelect weights random = chestRarities.get? i) ∧
    raritySelect [70, 20, 7, 2, 1] 71 = some "rare" := by
  constructor
  · intro weights random i hi hle hprev
    have hmain := raritySelectGo_spec random chestRarities weights i 0 0 (some "common")
      hi (by simpa using hle) (by intro j hj; simpa using hprev j hj)
    simpa [raritySelect] using hmain
  · norm_num [raritySelect, raritySelectGo, chestRarities]

/-- Witness for C8: the general scan characterization applied to the weight
vector [70, 20, 7, 2, 1] with draw value 71 at index 1. -/
theorem C8_chest_rarity_selection_witness :
    raritySelect [70, 20, 7, 2, 1] 71 = some "rare" := by
  have h := C8_chest_rarity_selection.1 [70, 20, 7, 2, 1] 71 1
    (by norm_num)
    (by norm_num)
    (by
      intro j hj
      interval_cases j
      norm_num)
  rw [h]
  norm_num [chestRarities]

/-! ## Unguarded discard and relic sale (claim C10) -/

/-- C10: `discardItem` and `sellRelic` have no equipped-item guard:
discarding the id of the equipped weapon or armor removes every owned copy
while `currentWeapon`/`currentArmor` keeps referencing the removed item, and
`sellRelic` removes the relic from both the owned and the equipped lists even
when equipped; the protection exists only in `sellWeapon`, `sellArmor` and
`bulkSell` (shown by their guard behavior). -/
theorem C10_unguarded_discard_and_sellRelic :
    (∀ (s : GameState) (w : Weapon), s.inventory.currentWeapon = some w →
      (∀ x ∈ (discardItem w.id true s).inventory.weapons, ¬ x.id = w.id) ∧
      (discardItem w.id true s).inventory.currentWeapon = some w) ∧
    (∀ (s : GameState) (a : Armor), s.inventory.currentArmor = some a →
      (∀ x ∈ (discardItem a.id false s).inventory.armor, ¬ x.id = a.id) ∧
      (discardItem a.id false s).inventory.currentArmor = some a) ∧
    (∀ (s : GameState) (relicId : String),
      (∀ r ∈ (sellRelic relicId s).inventory.relics, ¬ r.id = relicId) ∧
      (∀ r ∈ (sellRelic relicId s).inventory.equippedRelics, ¬ r.id = relicId)) ∧
    (∀ (s : GameState) (weaponId : String), currentWeaponIs s weaponId = true →
      sellWeapon weaponId s = s) ∧
    (∀ (s : GameState) (armorId : String), currentArmorIs s armorId = true →
      sellArmor armorId s = s) ∧
    (∀ (s : GameState) (itemIds : List String) (w : Weapon),
      s.inventory.currentWeapon = some w → w ∈ s.inventory.weapons →
      w ∈ (bulkSell itemIds true s).inventory.weapons) := by
  refine ⟨?_, ?_, ?_, ?_, ?_, ?_⟩
  · intro s w hcw
    constructor
    · intro x hx
      have h2 := (List.mem_filter.mp hx).2
      simp only [decide_eq_true_eq, beq_iff_eq] at h2
      exact h2
    · exact hcw
  · intro s a hca
    constructor
    · intro x hx
      have h2 := (List.mem_filter.mp hx).2
      simp only [decide_eq_true_eq, beq_iff_eq] at h2
      exact h2
    · exact hca
  · intro s relicId
    constructor
    · intro r hr
      have h2 := (List.mem_filter.mp hr).2
      simp only [decide_eq_true_eq, beq_iff_eq] at h2
      exact h2
    · intro r hr
      have h2 := (List.mem_filter.mp hr).2
      simp only [decide_eq_true_eq, beq_iff_eq] at h2
      exact h2
  · intro s weaponId hcw
    unfold sellWeapon
    split
    · rfl
    · rw [if_pos hcw]
  · intro s armorId hca
    unfold sellArmor
    split
    · rfl
    · rw [if_pos hca]
  · intro s itemIds w hcw hmem
    have hpred : currentWeaponIs s w.id = true := by
      unfold currentWeaponIs
      rw [hcw]
      exact beq_self_eq_true w.id
    unfold bulkSell
    rw [if_pos rfl]
    dsimp only
    refine List.mem_filter.mpr ⟨hmem, ?_⟩
    simp only [decide_eq_true_eq]
    exact Or.inr hpred

/-! ## Hydration semantics (claim C9) -/

/-- C9: hydrating a snapshot that lacks `adventureSkills` yields the
freshly-constructed default adventure-skill state; in general every top-level
field present in the snapshot overrides the default, and the `skills` and
`adventureSkills` sub-objects are deep-merged field by field with defaults
underneath and persisted values on top. -/
theorem C9_hydration (p : GameStateSnapshot) (now : ℚ) (ach : List Achievement)
    (tags : List PlayerTag) :
    (p.adventureSkills = none →
      (loadGameState p now ach tags).adventureSkills = emptyAdventureSkills) ∧
    (∀ v, p.coins = some v → (loadGameState p now ach tags).coins = v) ∧
    (∀ v, p.gems = some v → (loadGameState p now ach tags).gems = v) ∧
    (∀ v, p.shinyGems = some v → (loadGameState p now ach tags).shinyGems = v) ∧
    (∀ v, p.zone = some v → (loadGameState p now ach tags).zone = v) ∧
    (∀ v, p.playerStats = some v → (loadGameState p now ach tags).playerStats = v) ∧
    (∀ v, p.inventory = some v → (loadGameState p now ach tags).inventory = v) ∧
    (∀ v, p.currentEnemy = some v → (loadGameState p now ach tags).currentEnemy = v) ∧
    (∀ v, p.inCombat = some v → (loadGameState p now ach tags).inCombat = v) ∧
    (∀ v, p.combatLog = some v → (loadGameState p now ach tags).combatLog = v) ∧
    (∀ v, p.research = some v → (loadGameState p now ach tags).research = v) ∧
    (∀ v, p.isPremium = some v → (loadGameState p now ach tags).isPremium = v) ∧
    (∀ v, p.achievements = some v → (loadGameState p now ach tags).achievements = v) ∧
    (∀ v, p.collectionBook = some v → (loadGameState p now ach tags).collectionBook = v) ∧
    (∀ v, p.knowledgeStreak = some v → (loadGameState p now ach tags).knowledgeStreak = v) ∧
    (∀ v, p.gameMode = some v → (loadGameState p now ach tags).gameMode = v) ∧
    (∀ v, p.statistics = some v → (loadGameState p now ach tags).statistics = v) ∧
    (∀ v, p.cheats = some v → (loadGameState p now ach tags).cheats = v) ∧
    (∀ v, p.mining = some v → (loadGameState p now ach tags).mining = v) ∧
    (∀ v, p.yojefMarket = some v → (loadGameState p now ach tags).yojefMarket = v) ∧
    (∀ v, p.playerTags = some v → (loadGameState p now ach tags).playerTags = v) ∧
    (∀ v, p.dailyRewards = some v → (loadGameState p now ach tags).dailyRewards = v) ∧
    (∀ v, p.progression = some v → (loadGameState p now ach tags).progression = v) ∧
    (∀ v, p.offlineProgress = some v → (loadGameState p now ach tags).offlineProgress = v) ∧
    (∀ v, p.gardenOfGrowth = some v → (loadGameState p now ach tags).gardenOfGrowth = v) ∧
    (∀ v, p.settings = some v → (loadGameState p now ach tags).settings = v) ∧
    (∀ v, p.hasUsedRevival = some v → (loadGameState p now ach tags).hasUsedRevival = v) ∧
    (p.coins = none → (loadGameState p now ach tags).coins = 100) ∧
    (p.skills = none →
      (loadGameState p now ach tags).skills = (createInitialGameState now ach tags).skills) ∧
    (∀ q v, p.skills = some q → q.activeMenuSkill = some v →
      (loadGameState p now ach tags).skills.activeMenuSkill = v) ∧
    (∀ q, p.skills = some q → q.activeMenuSkill = none →
      (loadGameState p now ach tags).skills.activeMenuSkill = none) ∧
    (∀ q v, p.skills = some q → q.lastRollTime = some v →
      (loadGameState p now ach tags).skills.lastRollTime = v) ∧
    (∀ q, p.skills = some q → q.lastRollTime = none →
      (loadGameState p now ach tags).skills.lastRollTime = none) ∧
    (∀ q v, p.skills = some q → q.playTimeThisSession = some v →
      (loadGameState p now ach tags).skills.playTimeThisSession = v) ∧
    (∀ q, p.skills = some q → q.playTimeThisSession = none →
      (loadGameState p now ach tags).skills.playTimeThisSession = 0) ∧
    (∀ q v, p.skills = some q → q.sessionStartTime = some v →
      (loadGameState p now ach tags).skills.sessionStartTime = v) ∧
    (∀ q, p.skills = some q → q.sessionStartTime = none →
      (loadGameState p now ach tags).skills.sessionStartTime = now) ∧
    (∀ q v, p.adventureSkills = some q → q.selectedSkill = some v →
      (loadGameState p now ach tags).adventureSkills.selectedSkill = v) ∧
    (∀ q, p.adventureSkills = some q → q.selectedSkill = none →
      (loadGameState p now ach tags).adventureSkills.selectedSkill = none) ∧
    (∀ q v, p.adventureSkills = some q → q.availableSkills = some v →
      (loadGameState p now ach tags).adventureSkills.availableSkills = v) ∧
    (∀ q, p.adventureSkills = some q → q.availableSkills = none →
      (loadGameState p now ach tags).adventureSkills.availableSkills = []) ∧
    (∀ q v, p.adventureSkills = some q → q.showSelectionModal = some v →
      (loadGameState p now ach tags).adventureSkills.showSelectionModal = v) ∧
    (∀ q, p.adventureSkills = some q → q.showSelectionModal = none →
      (loadGameState p now ach tags).adventureSkills.showSelectionModal = false) ∧
    (∀ q v, p.adventureSkills = some q → q.skillEffects = some v →
      (loadGameState p now ach tags).adventureSkills.skillEffects = v) ∧
    (∀ q, p.adventureSkills = some q → q.skillEffects = none →
      (loadGameState p now ach tags).adventureSkills.skillEffects = emptySkillEffects) := by
  repeat' apply And.intro
  all_goals intros
  all_goals simp_all [loadGameState, hydrate, mergeSkills, mergeAdventureSkills,
    createInitialGameState, emptyAdventureSkills]

/-! ## Combat defeat precedence (claim C2) -/

/-- Fields the damage phase of `attack` never changes, and the fact that it
always keeps an enemy present. -/
theorem attackPhase1_frame (hit : Bool) (category : Option String) (e : Enemy)
    (s : GameState) :
    (attackPhase1 hit category e s).adventureSkills.selectedSkill
        = s.adventureSkills.selectedSkill ∧
    (attackPhase1 hit category e s).adventureSkills.skillEffects.metalShieldUsed
        = s.adventureSkills.skillEffects.metalShieldUsed ∧
    (attackPhase1 hit category e s).hasUsedRevival = s.hasUsedRevival ∧
    (attackPhase1 hit category e s).inCombat = s.inCombat ∧
    (attackPhase1 hit category e s).playerStats.atk = s.playerStats.atk ∧
    (attackPhase1 hit category e s).playerStats.maxHp = s.playerStats.maxHp ∧
    (attackPhase1 hit category e s).statistics.totalDeaths = s.statistics.totalDeaths ∧
    (attackPhase1 hit category e s).statistics.revivals = s.statistics.revivals ∧
    (attackPhase1 hit category e s).isPremium = s.isPremium ∧
    (∃ e1, (attackPhase1 hit category e s).currentEnemy = some e1) := by
  unfold attackPhase1
  split
  · exact ⟨rfl, rfl, rfl, rfl, rfl, rfl, rfl, rfl, rfl, _, rfl⟩
  · dsimp only
    split
    · exact ⟨rfl, rfl, rfl, rfl, rfl, rfl, rfl, rfl, rfl, _, rfl⟩
    · exact ⟨rfl, rfl, rfl, rfl, rfl, rfl, rfl, rfl, rfl, _, rfl⟩

/-- The victory check is the identity when the current enemy is alive. -/
theorem attackVictory_of_pos (s : GameState) (e1 : Enemy)
    (he : s.currentEnemy = some e1) (hpos : 0 < e1.hp) : attackVictory s = s := by
  unfold attackVictory
  rw [he]
  dsimp only
  rw [if_neg (not_le.mpr hpos)]

/-- With an enemy present, `attack` is the composition of its three phases. -/
theorem attack_eq_of_enemy (hit : Bool) (category : Option String) (e : Enemy)
    (s : GameState) (he : s.currentEnemy = some e) :
    attack hit category s
      = attackDefeat (attackVictory (attackPhase1 hit category e s)) := by
  unfold attack
  rw [he]

/-- `selectedSkillIs` only depends on the selected skill. -/
theorem selectedSkillIs_congr {s t : GameState}
    (h : t.adventureSkills.selectedSkill = s.adventureSkills.selectedSkill)
    (k : AdventureSkillType) : selectedSkillIs t k = selectedSkillIs s k := by
  unfold selectedSkillIs
  rw [h]

/-- C2: when an `attack` leaves the player at 0 hp or below and the victory
check does not fire, the outcome follows the precedence chain: an unused
selected metal shield survives at 1 hp with atk floored to 70% and consumes
its one-shot flag (combat continuing); otherwise an unused lifetime revival
restores full hp and consumes the revival flag (combat continuing); otherwise
combat ends in defeat with the adventure-skill state reset to its empty
default and `totalDeaths` incremented.  Because the shield branch requires
`metalShieldUsed = false` and sets it to true, it fires at most once per
combat and a later lethal hit falls through to the revival/defeat branches. -/
theorem C2_defeat_precedence (hit : Bool) (category : Option String) (e : Enemy)
    (s : GameState) (he : s.currentEnemy = some e)
    (hlethal : (attackPhase1 hit category e s).playerStats.hp ≤ 0)
    (hnovict : ∀ e1, (attackPhase1 hit category e s).currentEnemy = some e1 → 0 < e1.hp) :
    (selectedSkillIs s .metal_shield = true →
      s.adventureSkills.skillEffects.metalShieldUsed = false →
      (attack hit category s).playerStats.hp = 1 ∧
      (attack hit category s).playerStats.atk = (⌊s.playerStats.atk * 0.7⌋ : ℚ) ∧
      (attack hit category s).adventureSkills.skillEffects.metalShieldUsed = true ∧
      (attack hit category s).inCombat = s.inCombat ∧
      (attack hit category s).currentEnemy ≠ none ∧
      (attack hit category s).hasUsedRevival = s.hasUsedRevival ∧
      (attack hit category s).statistics.totalDeaths = s.statistics.totalDeaths) ∧
    (¬(selectedSkillIs s .metal_shield = true ∧
        s.adventureSkills.skillEffects.metalShieldUsed = false) →
      s.hasUsedRevival = false →
      (attack hit category s).playerStats.hp = s.playerStats.maxHp ∧
      (attack hit category s).hasUsedRevival = true ∧
      (attack hit category s).statistics.revivals = s.statistics.revivals + 1 ∧
      (attack hit category s).inCombat = s.inCombat ∧
      (attack hit category s).currentEnemy ≠ none ∧
      (attack hit category s).statistics.totalDeaths = s.statistics.totalDeaths) ∧
    (¬(selectedSkillIs s .metal_shield = true ∧
        s.adventureSkills.skillEffects.metalShieldUsed = false) →
      s.hasUsedRevival = true →
      (attack hit category s).inCombat = false ∧
      (attack hit category s).currentEnemy = none ∧
      (attack hit category s).adventureSkills = emptyAdventureSkills ∧
      (attack hit category s).statistics.totalDeaths = s.statistics.totalDeaths + 1) := by
  obtain ⟨hsel, hms, hrev, hic, hatk, hmax, hdeath, hreviv, hprem, e1, he1⟩ :=
    attackPhase1_frame hit category e s
  have hvic := attackVictory_of_pos _ e1 he1 (hnovict e1 he1)
  have hattack : attack hit category s
      = attackDefeat (attackPhase1 hit category e s) := by
    rw [attack_eq_of_enemy hit category e s he, hvic]
  set p := attackPhase1 hit category e s with hpdef
  rw [hattack]
  unfold attackDefeat
  rw [if_pos hlethal]
  refine ⟨?_, ?_, ?_⟩
  · intro h1 h2
    have hcond : (selectedSkillIs p .metal_shield &&
        !p.adventureSkills.skillEffects.metalShieldUsed) = true := by
      rw [selectedSkillIs_congr hsel, h1, hms, h2]
      rfl
    rw [if_pos hcond]
    refine ⟨rfl, ?_, rfl, hic, ?_, hrev, hdeath⟩
    · show (⌊p.playerStats.atk * 0.7⌋ : ℚ) = (⌊s.playerStats.atk * 0.7⌋ : ℚ)
      rw [hatk]
    · show p.currentEnemy ≠ none
      rw [he1]
      exact Option.some_ne_none e1
  · intro hnA hrv
    have hcond : (selectedSkillIs p .metal_shield &&
        !p.adventureSkills.skillEffects.metalShieldUsed) = false := by
      rw [selectedSkillIs_congr hsel, hms]
      cases hx : selectedSkillIs s .metal_shield with
      | false => rfl
      | true =>
        cases hy : s.adventureSkills.skillEffects.metalShieldUsed with
        | false => exact absurd ⟨hx, hy⟩ hnA
        | true => rfl
    rw [hcond, if_neg Bool.false_ne_true, hrev, hrv]
    rw [if_pos (show (!false) = true from rfl)]
    refine ⟨?_, rfl, ?_, hic, ?_, hdeath⟩
    · show p.playerStats.maxHp = s.playerStats.maxHp
      exact hmax
    · show p.statistics.revivals + 1 = s.statistics.revivals + 1
      rw [hreviv]
    · show p.currentEnemy ≠ none
      rw [he1]
      exact Option.some_ne_none e1
  · intro hnA hrv
    have hcond : (selectedSkillIs p .metal_shield &&
        !p.adventureSkills.skillEffects.metalShieldUsed) = false := by
      rw [selectedSkillIs_congr hsel, hms]
      cases hx : selectedSkillIs s .metal_shield with
      | false => rfl
      | true =>
        cases hy : s.adventureSkills.skillEffects.metalShieldUsed with
        | false => exact absurd ⟨hx, hy⟩ hnA
        | true => rfl
    rw [hcond, if_neg Bool.false_ne_true, hrev, hrv]
    rw [if_neg (show ¬((!true) = true) by simp)]
    refine ⟨rfl, rfl, rfl, ?_⟩
    show p.statistics.totalDeaths + 1 = s.statistics.totalDeaths + 1
    rw [hdeath]

/-! ## One-time revival and premium permanence (claims C3, C4) -/

theorem flagsFrame {s t : GameState}
    (h1 : t.hasUsedRevival = s.hasUsedRevival)
    (h2 : t.statistics.revivals = s.statistics.revivals)
    (h3 : t.isPremium = s.isPremium) :
    (s.hasUsedRevival = true →
      t.hasUsedRevival = true ∧ t.statistics.revivals = s.statistics.revivals) ∧
    (s.isPremium = true → t.isPremium = true) := by
  constructor
  · intro hh
    exact ⟨h1.trans hh, h2⟩
  · intro hh
    exact h3.trans hh

theorem attackVictory_flags (s : GameState) :
    (attackVictory s).hasUsedRevival = s.hasUsedRevival ∧
    (attackVictory s).statistics.revivals = s.statistics.revivals ∧
    (s.isPremium = true → (attackVictory s).isPremium = true) := by
  unfold attackVictory
  split
  · exact ⟨rfl, rfl, fun h => h⟩
  · split
    · dsimp only
      refine ⟨rfl, rfl, ?_⟩
      intro h
      show (if s.zone + 1 ≥ 50 then true else s.isPremium) = true
      split
      · rfl
      · exact h
    · exact ⟨rfl, rfl, fun h => h⟩

theorem attackDefeat_isPremium (s : GameState) :
    (attackDefeat s).isPremium = s.isPremium := by
  unfold attackDefeat
  split
  · split
    · rfl
    · split
      · rfl
      · rfl
  · rfl

theorem attackDefeat_flags (s : GameState) (hrv : s.hasUsedRevival = true) :
    (attackDefeat s).hasUsedRevival = true ∧
    (attackDefeat s).statistics.revivals = s.statistics.revivals := by
  unfold attackDefeat
  split
  · split
    · exact ⟨hrv, rfl⟩
    · rw [hrv]
      rw [if_neg (show ¬((!true) = true) by simp)]
      exact ⟨rfl, rfl⟩
  · exact ⟨hrv, rfl⟩

/-- Every public operation other than the full reset preserves a consumed
revival flag (and performs no further free revival) and preserves an unlocked
premium flag. -/
theorem step_flags (op : Op) (s : GameState) (hnr : op.isReset = false) :
    (s.hasUsedRevival = true →
      (step op s).hasUsedRevival = true ∧
      (step op s).statistics.revivals = s.statistics.revivals) ∧
    (s.isPremium = true → (step op s).isPremium = true) := by
  cases op
  case resetGame now ach tags => simp [Op.isReset] at hnr
  case attack hit category =>
    show (s.hasUsedRevival = true →
        (attack hit category s).hasUsedRevival = true ∧
        (attack hit category s).statistics.revivals = s.statistics.revivals) ∧
      (s.isPremium = true → (attack hit category s).isPremium = true)
    unfold attack
    split
    · exact flagsFrame rfl rfl rfl
    · rename_i e he
      obtain ⟨hsel, hms, hrev, hic, hatk, hmax, hdeath, hreviv, hprem, e1, he1⟩ :=
        attackPhase1_frame hit category e s
      obtain ⟨hv1, hv2, hv3⟩ := attackVictory_flags (attackPhase1 hit category e s)
      constructor
      · intro hrv
        have hrv2 : (attackVictory (attackPhase1 hit category e s)).hasUsedRevival
            = true := by
          rw [hv1, hrev, hrv]
        obtain ⟨hd1, hd2⟩ := attackDefeat_flags _ hrv2
        exact ⟨hd1, by rw [hd2, hv2, hreviv]⟩
      · intro hpm
        have hpm2 := hv3 (by rw [hprem]; exact hpm)
        rw [attackDefeat_isPremium]
        exact hpm2
  all_goals (
    simp only [step, equipWeapon, equipArmor, upgradeWeapon, upgradeArmor, sellWeapon,
      sellArmor, upgradeResearch, openChest, purchaseMythical, startCombat,
      selectAdventureSkill, skipAdventureSkills, useSkipCard, setGameMode, toggleCheat,
      mineGem, exchangeShinyGems, discardItem, purchaseRelic, upgradeRelic, equipRelic,
      unequipRelic, sellRelic, claimDailyReward, claimOfflineRewards, bulkSell,
      bulkUpgrade, plantSeed, buyWater, updateSettings, addCoins, addGems,
      teleportToZone, setExperience, rollSkill]
    repeat' split
    all_goals
      first
      | exact flagsFrame rfl rfl rfl
      | (constructor <;> (intro hh; simp_all)))

/-- C3: across a single game lifetime the free revival runs at most once —
every public operation except the full reset keeps `hasUsedRevival` true once
it is true and leaves the `revivals` counter unchanged in that case (the
revival branch runs only while the flag is false), and a terminal lethal hit
with no usable metal shield and the revival already consumed ends the combat
in defeat. -/
theorem C3_revival_at_most_once (op : Op) (s : GameState) :
    (op.isReset = false → s.hasUsedRevival = true →
      (step op s).hasUsedRevival = true ∧
      (step op s).statistics.revivals = s.statistics.revivals) ∧
    (s.hasUsedRevival = true →
      (selectedSkillIs s .metal_shield = true →
        s.adventureSkills.skillEffects.metalShieldUsed = true) →
      s.playerStats.hp ≤ 0 →
      (attackDefeat s).inCombat = false ∧
      (attackDefeat s).currentEnemy = none ∧
      (attackDefeat s).statistics.totalDeaths = s.statistics.totalDeaths + 1) := by
  constructor
  · intro hnr hrv
    exact (step_flags op s hnr).1 hrv
  · intro hrv hnoshield hhp
    unfold attackDefeat
    rw [if_pos hhp]
    have hcond : (selectedSkillIs s .metal_shield &&
        !s.adventureSkills.skillEffects.metalShieldUsed) = false := by
      cases hx : selectedSkillIs s .metal_shield with
      | false => rfl
      | true => rw [hnoshield hx]; rfl
    rw [hcond, if_neg Bool.false_ne_true, hrv]
    rw [if_neg (show ¬((!true) = true) by simp)]
    exact ⟨rfl, rfl, rfl⟩

/-! ## Victory branch (claim C4) -/

theorem attackDefeat_frame (s : GameState) :
    (attackDefeat s).coins = s.coins ∧ (attackDefeat s).gems = s.gems ∧
    (attackDefeat s).zone = s.zone ∧
    (attackDefeat s).statistics.totalVictories = s.statistics.totalVictories ∧
    (attackDefeat s).statistics.coinsEarned = s.statistics.coinsEarned ∧
    (attackDefeat s).statistics.gemsEarned = s.statistics.gemsEarned ∧
    (attackDefeat s).statistics.zonesReached = s.statistics.zonesReached := by
  unfold attackDefeat
  split
  · split
    · exact ⟨rfl, rfl, rfl, rfl, rfl, rfl, rfl⟩
    · split
      · exact ⟨rfl, rfl, rfl, rfl, rfl, rfl, rfl⟩
      · exact ⟨rfl, rfl, rfl, rfl, rfl, rfl, rfl⟩
  · exact ⟨rfl, rfl, rfl, rfl, rfl, rfl, rfl⟩

/-- After a victory has already ended the combat (no enemy, empty
adventure-skill state), the defeat check cannot restart or re-arm anything:
combat stays ended and the skill state stays empty. -/
theorem attackDefeat_after_victory (s : GameState)
    (h1 : s.inCombat = false) (h2 : s.currentEnemy = none)
    (h3 : s.adventureSkills = emptyAdventureSkills) :
    (attackDefeat s).inCombat = false ∧ (attackDefeat s).currentEnemy = none ∧
    (attackDefeat s).adventureSkills = emptyAdventureSkills := by
  have hcond : (selectedSkillIs s .metal_shield &&
      !s.adventureSkills.skillEffects.metalShieldUsed) = false := by
    unfold selectedSkillIs
    rw [h3]
    rfl
  unfold attackDefeat
  split
  · rw [hcond, if_neg Bool.false_ne_true]
    split
    · exact ⟨h1, h2, h3⟩
    · exact ⟨rfl, rfl, rfl⟩
  · exact ⟨h1, h2, h3⟩

/-- C4: a hit that brings the enemy to 0 hp or below pays out exactly
`floor((10 + zone*2) * m)` coins and `floor((1 + floor(zone/5)) * m)` gems,
where `zone` is read before its increment and `m` is the streak multiplier
after the hit raised the streak; the zone advances by one, combat ends, the
adventure-skill state resets to its empty default, premium unlocks once the
new zone reaches 50, the victory statistics update — and premium, once true,
is preserved by every operation except the full reset. -/
theorem C4_victory_branch (category : Option String) (e : Enemy) (s : GameState)
    (he : s.currentEnemy = some e)
    (hkill : e.hp - attackDamage s e ≤ 0) :
    (attack true category s).coins
        = s.coins + (⌊(10 + s.zone * 2) * (1 + (s.knowledgeStreak.current + 1) * 0.1)⌋ : ℚ) ∧
    (attack true category s).gems
        = s.gems + (⌊(1 + (⌊s.zone / 5⌋ : ℚ)) * (1 + (s.knowledgeStreak.current + 1) * 0.1)⌋ : ℚ) ∧
    (attack true category s).zone = s.zone + 1 ∧
    (attack true category s).inCombat = false ∧
    (attack true category s).currentEnemy = none ∧
    (attack true category s).adventureSkills = emptyAdventureSkills ∧
    (50 ≤ s.zone + 1 → (attack true category s).isPremium = true) ∧
    (attack true category s).statistics.totalVictories
        = s.statistics.totalVictories + 1 ∧
    (attack true category s).statistics.coinsEarned
        = s.statistics.coinsEarned
          + (⌊(10 + s.zone * 2) * (1 + (s.knowledgeStreak.current + 1) * 0.1)⌋ : ℚ) ∧
    (attack true category s).statistics.gemsEarned
        = s.statistics.gemsEarned
          + (⌊(1 + (⌊s.zone / 5⌋ : ℚ)) * (1 + (s.knowledgeStreak.current + 1) * 0.1)⌋ : ℚ) ∧
    (attack true category s).statistics.zonesReached
        = max s.statistics.zonesReached (s.zone + 1) ∧
    (∀ (op : Op) (s1 : GameState), op.isReset = false → s1.isPremium = true →
      (step op s1).isPremium = true) := by
  have hen : (attackPhase1 true category e s).currentEnemy
      = some { e with hp := max 0 (e.hp - attackDamage s e) } := rfl
  have hdead : max 0 (e.hp - attackDamage s e) ≤ 0 := max_le le_rfl hkill
  have hvcoins : (attackVictory (attackPhase1 true category e s)).coins
      = s.coins + (⌊(10 + s.zone * 2) * (1 + (s.knowledgeStreak.current + 1) * 0.1)⌋ : ℚ) := by
    unfold attackVictory
    rw [hen]
    dsimp only
    rw [if_pos hdead]
    rfl
  have hvgems : (attackVictory (attackPhase1 true category e s)).gems
      = s.gems + (⌊(1 + (⌊s.zone / 5⌋ : ℚ)) * (1 + (s.knowledgeStreak.current + 1) * 0.1)⌋ : ℚ) := by
    unfold attackVictory
    rw [hen]
    dsimp only
    rw [if_pos hdead]
    rfl
  have hvzone : (attackVictory (attackPhase1 true category e s)).zone = s.zone + 1 := by
    unfold attackVictory
    rw [hen]
    dsimp only
    rw [if_pos hdead]
    rfl
  have hvic : (attackVictory (attackPhase1 true category e s)).inCombat = false := by
    unfold attackVictory
    rw [hen]
    dsimp only
    rw [if_pos hdead]
  have hven : (attackVictory (attackPhase1 true category e s)).currentEnemy = none := by
    unfold attackVictory
    rw [hen]
    dsimp only
    rw [if_pos hdead]
  have hvsk : (attackVictory (attackPhase1 true category e s)).adventureSkills
      = emptyAdventureSkills := by
    unfold attackVictory
    rw [hen]
    dsimp only
    rw [if_pos hdead]
  have hvprem : 50 ≤ s.zone + 1 →
      (attackVictory (attackPhase1 true category e s)).isPremium = true := by
    intro hz
    unfold attackVictory
    rw [hen]
    dsimp only
    rw [if_pos hdead]
    show (if s.zone + 1 ≥ 50 then true else s.isPremium) = true
    rw [if_pos hz]
  have hvtv : (attackVictory (attackPhase1 true category e s)).statistics.totalVictories
      = s.statistics.totalVictories + 1 := by
    unfold attackVictory
    rw [hen]
    dsimp only
    rw [if_pos hdead]
    rfl
  have hvce : (attackVictory (attackPhase1 true category e s)).statistics.coinsEarned
      = s.statistics.coinsEarned
        + (⌊(10 + s.zone * 2) * (1 + (s.knowledgeStreak.current + 1) * 0.1)⌋ : ℚ) := by
    unfold attackVictory
    rw [hen]
    dsimp only
    rw [if_pos hdead]
    rfl
  have hvge : (attackVictory (attackPhase1 true category e s)).statistics.gemsEarned
      = s.statistics.gemsEarned
        + (⌊(1 + (⌊s.zone / 5⌋ : ℚ)) * (1 + (s.knowledgeStreak.current + 1) * 0.1)⌋ : ℚ) := by
    unfold attackVictory
    rw [hen]
    dsimp only
    rw [if_pos hdead]
    rfl
  have hvzr : (attackVictory (attackPhase1 true category e s)).statistics.zonesReached
      = max s.statistics.zonesReached (s.zone + 1) := by
    unfold attackVictory
    rw [hen]
    dsimp only
    rw [if_pos hdead]
    rfl
  obtain ⟨hd1, hd2, hd3⟩ :=
    attackDefeat_after_victory (attackVictory (attackPhase1 true category e s))
      hvic hven hvsk
  obtain ⟨hf1, hf2, hf3, hf4, hf5, hf6, hf7⟩ :=
    attackDefeat_frame (attackVictory (attackPhase1 true category e s))
  rw [attack_eq_of_enemy true category e s he]
  refine ⟨?_, ?_, ?_, hd1, hd2, hd3, ?_, ?_, ?_, ?_, ?_, ?_⟩
  · rw [hf1, hvcoins]
  · rw [hf2, hvgems]
  · rw [hf3, hvzone]
  · intro hz
    rw [attackDefeat_isPremium]
    exact hvprem hz
  · rw [hf4, hvtv]
  · rw [hf5, hvce]
  · rw [hf6, hvge]
  · rw [hf7, hvzr]
  · exact fun op s1 hnr hpm => (step_flags op s1 hnr).2 hpm

/-! ## Dodge behavior (claim C5) -/

/-- C5 (amended): in a combat with `dodge` selected, the first miss leaves hp
unchanged and consumes the dodge flag; a second miss in the same combat —
provided lightning chain is not active, which holds in any normally started
combat — decreases hp by exactly `max(1, enemy.atk - def)` (stated here for a
non-lethal hit; a lethal hit additionally triggers the defeat chain). -/
theorem C5_dodge_behavior (category : Option String) (e : Enemy) (s : GameState)
    (he : s.currentEnemy = some e) (hsel : selectedSkillIs s .dodge = true)
    (henemy : 0 < e.hp) :
    (s.adventureSkills.skillEffects.dodgeUsed = false → 0 < s.playerStats.hp →
      (attack false category s).playerStats.hp = s.playerStats.hp ∧
      (attack false category s).adventureSkills.skillEffects.dodgeUsed = true) ∧
    (s.adventureSkills.skillEffects.dodgeUsed = true →
      s.adventureSkills.skillEffects.lightningChainActive = false →
      0 < s.playerStats.hp - max 1 (e.atk - s.playerStats.«def») →
      (attack false category s).playerStats.hp
        = s.playerStats.hp - max 1 (e.atk - s.playerStats.«def»)) := by
  rw [attack_eq_of_enemy false category e s he]
  constructor
  · intro hdu hhp
    have hddg : ((s.adventureSkills.skillEffects.dodgeUsed == false) &&
        selectedSkillIs s .dodge) = true := by
      rw [hdu, hsel]
      rfl
    have h1 : (attackPhase1 false category e s).playerStats.hp = s.playerStats.hp := by
      unfold attackPhase1
      rw [if_neg Bool.false_ne_true]
      dsimp only
      rw [hddg, if_pos rfl]
    have h2 : (attackPhase1 false category e s).adventureSkills.skillEffects.dodgeUsed
        = true := by
      unfold attackPhase1
      rw [if_neg Bool.false_ne_true]
      dsimp only
      rw [hddg, if_pos rfl]
    have h3 : (attackPhase1 false category e s).currentEnemy = some e := by
      unfold attackPhase1
      rw [if_neg Bool.false_ne_true]
      dsimp only
      rw [hddg, if_pos rfl]
    have hvic := attackVictory_of_pos _ e h3 henemy
    have hpos1 : 0 < (attackPhase1 false category e s).playerStats.hp := by
      rw [h1]
      exact hhp
    rw [hvic]
    unfold attackDefeat
    rw [if_neg (not_le.mpr hpos1)]
    exact ⟨h1, h2⟩
  · intro hdu hlc hsurv
    have hddg : ((s.adventureSkills.skillEffects.dodgeUsed == false) &&
        selectedSkillIs s .dodge) = false := by
      rw [hdu]
      rfl
    have h1 : (attackPhase1 false category e s).playerStats.hp
        = max 0 (s.playerStats.hp - max 1 (e.atk - s.playerStats.«def»)) := by
      unfold attackPhase1
      rw [if_neg Bool.false_ne_true]
      dsimp only
      rw [hddg, if_neg Bool.false_ne_true]
      rw [hlc, if_neg Bool.false_ne_true]
    have h3 : (attackPhase1 false category e s).currentEnemy = some e := by
      unfold attackPhase1
      rw [if_neg Bool.false_ne_true]
      dsimp only
      rw [hddg, if_neg Bool.false_ne_true]
    have hmax : max 0 (s.playerStats.hp - max 1 (e.atk - s.playerStats.«def»))
        = s.playerStats.hp - max 1 (e.atk - s.playerStats.«def») :=
      max_eq_right (le_of_lt hsurv)
    have hvic := attackVictory_of_pos _ e h3 henemy
    have hpos2 : 0 < (attackPhase1 false category e s).playerStats.hp := by
      rw [h1, hmax]
      exact hsurv
    rw [hvic]
    unfold attackDefeat
    rw [if_neg (not_le.mpr hpos2)]
    rw [h1, hmax]

/-! ## The hp bound (claim C6) -/

/-- The hp bound carried through the operations: hp stays within
`[0, maxHp]` and `maxHp` is the constant 100 (nothing in the engine ever
writes `maxHp`). -/
structure HpInv (s : GameState) : Prop where
  hp_nonneg : 0 ≤ s.playerStats.hp
  hp_le : s.playerStats.hp ≤ s.playerStats.maxHp
  maxHp_eq : s.playerStats.maxHp = 100

theorem HpInv.transfer {s t : GameState} (h : HpInv s)
    (hps : t.playerStats = s.playerStats) : HpInv t := by
  constructor
  · rw [hps]; exact h.hp_nonneg
  · rw [hps]; exact h.hp_le
  · rw [hps]; exact h.maxHp_eq

theorem floor_scale_nonneg (x c : ℚ) (hx : 0 ≤ x) (hc0 : 0 ≤ c) :
    (0 : ℚ) ≤ (⌊x * c⌋ : ℚ) := by
  exact_mod_cast Int.floor_nonneg.mpr (mul_nonneg hx hc0)

theorem floor_scale_le (x c : ℚ) (hx : 0 ≤ x) (hc1 : c ≤ 1) :
    (⌊x * c⌋ : ℚ) ≤ x := by
  have h1 : (⌊x * c⌋ : ℚ) ≤ x * c := Int.floor_le _
  nlinarith

theorem hpInv_init (now : ℚ) (ach : List Achievement) (tags : List PlayerTag) :
    HpInv (createInitialGameState now ach tags) := by
  constructor
  · show (0 : ℚ) ≤ 100
    norm_num
  · show (100 : ℚ) ≤ 100
    norm_num
  · rfl

/-- Selecting a skill preserves the hp bound unless a ramp doubles hp. -/
theorem hpInv_selectAdventureSkill (skill : AdventureSkill) (enemy : Enemy)
    (r1 r2 r3 : ℚ) (s : GameState)
    (hnr : ¬(skill.«type» = .ramp ∧ ¬(r1 < 0.33) ∧ ¬(r2 < 0.5)))
    (h : HpInv s) : HpInv (selectAdventureSkill skill enemy r1 r2 r3 s) := by
  unfold selectAdventureSkill
  cases htype : skill.«type» with
  | risker =>
    dsimp only
    constructor
    · show (0 : ℚ) ≤ (⌊s.playerStats.hp * 0.85⌋ : ℚ)
      exact floor_scale_nonneg _ _ h.hp_nonneg (by norm_num)
    · show (⌊s.playerStats.hp * 0.85⌋ : ℚ) ≤ s.playerStats.maxHp
      exact le_trans (floor_scale_le _ _ h.hp_nonneg (by norm_num)) h.hp_le
    · exact h.maxHp_eq
  | ramp =>
    by_cases h1 : r1 < (0.33 : ℚ)
    · dsimp only
      simp only [h1, if_true]
      by_cases h3 : r3 < (0.5 : ℚ)
      · simp only [h3, if_true]
        exact ⟨h.hp_nonneg, h.hp_le, h.maxHp_eq⟩
      · simp only [h3, if_false]
        constructor
        · show (0 : ℚ) ≤ (⌊s.playerStats.hp * 0.6⌋ : ℚ)
          exact floor_scale_nonneg _ _ h.hp_nonneg (by norm_num)
        · show (⌊s.playerStats.hp * 0.6⌋ : ℚ) ≤ s.playerStats.maxHp
          exact le_trans (floor_scale_le _ _ h.hp_nonneg (by norm_num)) h.hp_le
        · exact h.maxHp_eq
    · by_cases h2 : r2 < (0.5 : ℚ)
      · dsimp only
        simp only [h1, h2, if_true, if_false]
        by_cases h3 : r3 < (0.5 : ℚ)
        · simp only [h3, if_true]
          exact ⟨h.hp_nonneg, h.hp_le, h.maxHp_eq⟩
        · simp only [h3, if_false]
          constructor
          · show (0 : ℚ) ≤ (⌊s.playerStats.hp * 0.6⌋ : ℚ)
            exact floor_scale_nonneg _ _ h.hp_nonneg (by norm_num)
          · show (⌊s.playerStats.hp * 0.6⌋ : ℚ) ≤ s.playerStats.maxHp
            exact le_trans (floor_scale_le _ _ h.hp_nonneg (by norm_num)) h.hp_le
          · exact h.maxHp_eq
      · exact absurd ⟨htype, h1, h2⟩ hnr
  | lightning_chain => exact h.transfer rfl
  | truth_lies => exact h.transfer rfl
  | skip_card => exact h.transfer rfl
  | metal_shield => exact h.transfer rfl
  | dodge => exact h.transfer rfl

theorem hpInv_attackPhase1 (hit : Bool) (category : Option String) (e : Enemy)
    (s : GameState) (h : HpInv s) : HpInv (attackPhase1 hit category e s) := by
  unfold attackPhase1
  split
  · exact ⟨h.hp_nonneg, h.hp_le, h.maxHp_eq⟩
  · dsimp only
    split
    · exact ⟨h.hp_nonneg, h.hp_le, h.maxHp_eq⟩
    · split
      · have hD : (0 : ℚ) ≤ (⌊max 1 (e.atk - s.playerStats.«def») * 1.1⌋ : ℚ) := by
          have hx : (0 : ℚ) ≤ max 1 (e.atk - s.playerStats.«def») * 1.1 := by
            have h1 : (1 : ℚ) ≤ max 1 (e.atk - s.playerStats.«def») :=
              le_max_left 1 _
            nlinarith
          exact_mod_cast Int.floor_nonneg.mpr hx
        constructor
        · exact le_max_left 0 _
        · show max 0 (s.playerStats.hp
              - (⌊max 1 (e.atk - s.playerStats.«def») * 1.1⌋ : ℚ)) ≤ s.playerStats.maxHp
          apply max_le
          · rw [h.maxHp_eq]; norm_num
          · have := h.hp_le; linarith
        · exact h.maxHp_eq
      · have hD : (0 : ℚ) ≤ max 1 (e.atk - s.playerStats.«def») := by
          have h1 : (1 : ℚ) ≤ max 1 (e.atk - s.playerStats.«def») := le_max_left 1 _
          linarith
        constructor
        · exact le_max_left 0 _
        · show max 0 (s.playerStats.hp - max 1 (e.atk - s.playerStats.«def»))
              ≤ s.playerStats.maxHp
          apply max_le
          · rw [h.maxHp_eq]; norm_num
          · have := h.hp_le; linarith
        · exact h.maxHp_eq

theorem hpInv_attackVictory (s : GameState) (h : HpInv s) :
    HpInv (attackVictory s) := by
  unfold attackVictory
  split
  · exact h
  · split
    · exact ⟨h.hp_nonneg, h.hp_le, h.maxHp_eq⟩
    · exact h

theorem hpInv_attackDefeat (s : GameState) (h : HpInv s) :
    HpInv (attackDefeat s) := by
  unfold attackDefeat
  split
  · split
    · constructor
      · show (0 : ℚ) ≤ 1
        norm_num
      · show (1 : ℚ) ≤ s.playerStats.maxHp
        rw [h.maxHp_eq]; norm_num
      · exact h.maxHp_eq
    · split
      · constructor
        · show (0 : ℚ) ≤ s.playerStats.maxHp
          rw [h.maxHp_eq]; norm_num
        · exact le_refl _
        · exact h.maxHp_eq
      · exact ⟨h.hp_nonneg, h.hp_le, h.maxHp_eq⟩
  · exact h

theorem hpInv_attack (hit : Bool) (category : Option String) (s : GameState)
    (h : HpInv s) : HpInv (attack hit category s) := by
  unfold attack
  split
  · exact h
  · exact hpInv_attackDefeat _ (hpInv_attackVictory _ (hpInv_attackPhase1 _ _ _ _ h))

/-- Every public operation that is not a hp-doubling ramp selection preserves
the hp bound. -/
theorem hpInv_step (op : Op) (s : GameState) (hnr : op.NoHpRamp) (h : HpInv s) :
    HpInv (step op s) := by
  cases op
  case selectAdventureSkill skill enemy r1 r2 r3 =>
    exact hpInv_selectAdventureSkill skill enemy r1 r2 r3 s hnr h
  case attack hit category => exact hpInv_attack hit category s h
  case resetGame now ach tags => exact hpInv_init now ach tags
  all_goals (
    simp only [step, equipWeapon, equipArmor, upgradeWeapon, upgradeArmor, sellWeapon,
      sellArmor, upgradeResearch, openChest, purchaseMythical, startCombat,
      skipAdventureSkills, useSkipCard, setGameMode, toggleCheat,
      mineGem, exchangeShinyGems, discardItem, purchaseRelic, upgradeRelic, equipRelic,
      unequipRelic, sellRelic, claimDailyReward, claimOfflineRewards, bulkSell,
      bulkUpgrade, plantSeed, buyWater, updateSettings, addCoins, addGems,
      teleportToZone, setExperience, rollSkill]
    repeat' split
    all_goals exact ⟨h.hp_nonneg, h.hp_le, h.maxHp_eq⟩)

theorem hpInv_runOps (ops : List Op) (s : GameState)
    (hv : ∀ op ∈ ops, op.NoHpRamp) (h : HpInv s) : HpInv (runOps ops s) := by
  induction ops generalizing s with
  | nil => exact h
  | cons op rest ih =>
    exact ih (step op s) (fun o ho => hv o (List.mem_cons_of_mem op ho))
      (hpInv_step op s (hv op (List.mem_cons_self op rest)) h)

/-- C6 (amended): in every state reachable from the initial state by public
operations none of which is a ramp selection that doubles hp, the player hp
stays between 0 and `maxHp`.  (A hp-doubling ramp breaks the bound — see the
counterexample — so the exception is necessary.) -/
theorem C6_hp_le_maxHp (ops : List Op) (now : ℚ) (ach : List Achievement)
    (tags : List PlayerTag) (hv : ∀ op ∈ ops, op.NoHpRamp) :
    0 ≤ (runOps ops (createInitialGameState now ach tags)).playerStats.hp ∧
    (runOps ops (createInitialGameState now ach tags)).playerStats.hp
      ≤ (runOps ops (createInitialGameState now ach tags)).playerStats.maxHp := by
  have h := hpInv_runOps ops _ hv (hpInv_init now ach tags)
  exact ⟨h.hp_nonneg, h.hp_le⟩

/-! ## Currency nonnegativity (claim C1) -/

/-- C1 (amended): along every sequence of public operations from the initial
state whose oracle inputs are valid — in particular with nonnegative amounts
passed to `addCoins`, `addGems` and `exchangeShinyGems`, and externally
generated items carrying nonnegative prices — the coins, gems and shiny-gems
counters are never negative after any operation.  (With a negative amount the
unguarded `addCoins`/`addGems` and the back side of the `exchangeShinyGems`
guard drive the counters negative — see the counterexample.) -/
theorem C1_currencies_nonneg (ops : List Op) (now : ℚ) (ach : List Achievement)
    (tags : List PlayerTag) (hv : ∀ op ∈ ops, op.Valid) :
    0 ≤ (runOps ops (createInitialGameState now ach tags)).coins ∧
    0 ≤ (runOps ops (createInitialGameState now ach tags)).gems ∧
    0 ≤ (runOps ops (createInitialGameState now ach tags)).shinyGems := by
  have h := stateInv_runOps ops _ hv (stateInv_init now ach tags)
  exact ⟨h.coins_nonneg, h.gems_nonneg, h.shiny_nonneg⟩

/-! ## Concrete witnesses and counterexamples

The definitions of this development are all executable; the remaining
theorems evaluate them on concrete inputs.  The `simp` attributes below feed
the evaluation. -/

attribute [simp] runOps step equipWeapon equipArmor upgradeWeapon upgradeArmor
  sellWeapon sellArmor upgradeResearch openChest purchaseMythical startCombat
  selectAdventureSkill skipAdventureSkills useSkipCard attack attackPhase1
  attackVictory attackDefeat attackDamage selectedSkillIs bumpCategoryOpt
  bumpCategory resetGame setGameMode toggleCheat mineGem exchangeShinyGems
  discardItem purchaseRelic upgradeRelic equipRelic unequipRelic sellRelic
  claimDailyReward claimOfflineRewards bulkSell bulkUpgrade plantSeed buyWater
  updateSettings addCoins addGems teleportToZone setExperience rollSkill
  createInitialGameState emptySkillEffects emptyAdventureSkills currentWeaponIs
  currentArmorIs sellTotal raritySelect raritySelectGo chestRarities bumpRarity
  menuSkillTypes menuSkillName menuSkillDescription hydrate mergeSkills
  mergeAdventureSkills loadGameState Op.Valid Op.isReset Op.NoHpRamp

/-- C1 counterexample: from the initial state, `addCoins(-200)` leaves the
coins counter at -100, and `exchangeShinyGems(-1)` (whose guard
`shinyGems < amount` passes for a negative amount) leaves the gems counter at
-10 — the claim fails for arbitrary (negative) amounts. -/
theorem C1_counterexample :
    (runOps [Op.addCoins (-200)] (createInitialGameState 0 [] [])).coins < 0 ∧
    (runOps [Op.exchangeShinyGems (-1)] (createInitialGameState 0 [] [])).gems < 0 := by
  constructor <;> norm_num

/-- Witness for C1: the amended nonnegativity theorem applied to a concrete
valid operation sequence. -/
theorem C1_currencies_nonneg_witness :
    0 ≤ (runOps [Op.addCoins 5, Op.mineGem true]
        (createInitialGameState 0 [] [])).coins ∧
    0 ≤ (runOps [Op.addCoins 5, Op.mineGem true]
        (createInitialGameState 0 [] [])).gems ∧
    0 ≤ (runOps [Op.addCoins 5, Op.mineGem true]
        (createInitialGameState 0 [] [])).shinyGems :=
  C1_currencies_nonneg [Op.addCoins 5, Op.mineGem true] 0 [] []
    (by
      intro op hop
      simp only [List.mem_cons, List.not_mem_nil, or_false] at hop
      rcases hop with rfl | rfl
      · show (0 : ℚ) ≤ 5
        norm_num
      · trivial)

/-- A metal-shield skill card (concrete instance for evaluation). -/
def wSkillMetal : AdventureSkill :=
  { id := "metal_shield", name := "Metal Shield"
    description := "If you are about to die, auto sacrifice 30% ATK to just cancel damage taken"
    «type» := .metal_shield }

/-- A hard-hitting enemy whose miss damage is lethal from full hp. -/
def wEnemyBrute : Enemy := { name := "Brute", hp := 50, atk := 200, «def» := 0 }

/-- A combat state with the metal shield selected and unused. -/
def wStateMetal : GameState :=
  { createInitialGameState 0 [] [] with
    currentEnemy := some wEnemyBrute
    inCombat := true
    adventureSkills := { emptyAdventureSkills with selectedSkill := some wSkillMetal } }

/-- Witness for C2: the defeat-precedence theorem applied to a lethal miss in
a combat with an unused metal shield: the player survives at 1 hp, atk drops
to floor(20 * 0.7) = 14 and the one-shot flag is consumed. -/
theorem C2_defeat_precedence_witness :
    (attack false none wStateMetal).playerStats.hp = 1 ∧
    (attack false none wStateMetal).playerStats.atk = 14 ∧
    (attack false none wStateMetal).adventureSkills.skillEffects.metalShieldUsed = true := by
  have hne : AdventureSkillType.metal_shield ≠ AdventureSkillType.dodge :=
    fun hx => AdventureSkillType.noConfusion hx
  have hce : (attackPhase1 false none wEnemyBrute wStateMetal).currentEnemy
      = some wEnemyBrute := by
    norm_num [wStateMetal, wEnemyBrute, wSkillMetal, hne]
  have h := C2_defeat_precedence false none wEnemyBrute wStateMetal rfl
    (by norm_num [wStateMetal, wEnemyBrute, wSkillMetal, hne])
    (by
      intro e1 he1
      rw [hce] at he1
      injection he1 with he2
      rw [← he2]
      norm_num [wEnemyBrute])
  obtain ⟨hA, -, -⟩ := h
  obtain ⟨hhp, hatk, hms, -, -, -, -⟩ := hA rfl rfl
  refine ⟨hhp, ?_, hms⟩
  rw [hatk]
  norm_num [wStateMetal]

/-- A state whose free revival is already spent and whose hp is 0. -/
def wStateSpent : GameState :=
  { createInitialGameState 0 [] [] with
    hasUsedRevival := true
    playerStats := { (createInitialGameState 0 [] []).playerStats with hp := 0 } }

/-- Witness for C3: the revival-at-most-once theorem applied to `addCoins 5`
on a revival-spent state, and to the terminal defeat of that state. -/
theorem C3_revival_at_most_once_witness :
    (step (Op.addCoins 5) wStateSpent).hasUsedRevival = true ∧
    (step (Op.addCoins 5) wStateSpent).statistics.revivals
      = wStateSpent.statistics.revivals ∧
    (attackDefeat wStateSpent).inCombat = false ∧
    (attackDefeat wStateSpent).currentEnemy = none ∧
    (attackDefeat wStateSpent).statistics.totalDeaths
      = wStateSpent.statistics.totalDeaths + 1 := by
  obtain ⟨h1, h2⟩ := C3_revival_at_most_once (Op.addCoins 5) wStateSpent
  obtain ⟨ha, hb⟩ := h1 rfl rfl
  obtain ⟨hc, hd, he⟩ := h2 rfl
    (by intro hx; simp [wStateSpent] at hx)
    (le_refl 0)
  exact ⟨ha, hb, hc, hd, he⟩

/-- A weak enemy that dies to one hit. -/
def wEnemyWeak : Enemy := { name := "Slime", hp := 5, atk := 5, «def» := 0 }

/-- A combat state at zone 10 with streak 4, so that the multiplier after the
next hit is 1 + 5 * 0.1 = 1.5 — the worked example of the specification. -/
def wStateZone10 : GameState :=
  { createInitialGameState 0 [] [] with
    zone := 10
    knowledgeStreak := { current := 4, best := 4, multiplier := 1.4 }
    currentEnemy := some wEnemyWeak
    inCombat := true }

/-- Witness for C4: the victory-branch theorem at zone 10 with post-hit
multiplier 1.5 pays exactly 45 coins and 4 gems, advances to zone 11 and ends
the combat. -/
theorem C4_victory_branch_witness :
    (attack true none wStateZone10).coins = wStateZone10.coins + 45 ∧
    (attack true none wStateZone10).gems = wStateZone10.gems + 4 ∧
    (attack true none wStateZone10).zone = 11 ∧
    (attack true none wStateZone10).inCombat = false ∧
    (attack true none wStateZone10).currentEnemy = none := by
  have h := C4_victory_branch none wEnemyWeak wStateZone10 rfl
    (by norm_num [wStateZone10, wEnemyWeak, max_def])
  obtain ⟨hc, hg, hz, hic, hce, -, -, -, -, -, -, -⟩ := h
  refine ⟨?_, ?_, ?_, hic, hce⟩
  · rw [hc]
    norm_num [wStateZone10]
  · rw [hg]
    norm_num [wStateZone10]
  · rw [hz]
    norm_num [wStateZone10]

/-- A lightning-chain skill card (concrete instance for evaluation). -/
def cexSkillLightning : AdventureSkill :=
  { id := "lightning_chain", name := "Lightning Chain"
    description := "Every correct answer, deal 15% extra ATK but every wrong answer, be dealt 10% more ATK"
    «type» := .lightning_chain }

/-- A dodge skill card (concrete instance for evaluation). -/
def cexSkillDodge : AdventureSkill :=
  { id := "dodge", name := "Dodge"
    description := "Don't take damage from the first wrong answer"
    «type» := .dodge }

/-- An enemy whose miss damage distinguishes plain and lightning-boosted
damage: max(1, 30 - 10) = 20 plain, floor(20 * 1.1) = 22 boosted. -/
def cexEnemyOgre : Enemy := { name := "Ogre", hp := 50, atk := 30, «def» := 0 }

/-- C5 counterexample: `selectAdventureSkill` has no in-combat guard and
preserves `lightningChainActive`, so selecting lightning chain and then dodge
reaches a combat with dodge selected and the lightning flag still set.  There
the first miss is dodged (hp stays 100, flag consumed), but the second miss
deals floor(max(1, 30 - 10) * 1.1) = 22, leaving hp at 78, while the claim
formula max(1, enemy.atk - def) = 20 predicts 80. -/
theorem C5_counterexample :
    (runOps [Op.selectAdventureSkill cexSkillLightning cexEnemyOgre 0 0 0,
             Op.selectAdventureSkill cexSkillDodge cexEnemyOgre 0 0 0,
             Op.attack false none]
        (createInitialGameState 0 [] [])).playerStats.hp = 100 ∧
    selectedSkillIs (runOps [Op.selectAdventureSkill cexSkillLightning cexEnemyOgre 0 0 0,
             Op.selectAdventureSkill cexSkillDodge cexEnemyOgre 0 0 0,
             Op.attack false none]
        (createInitialGameState 0 [] [])) .dodge = true ∧
    (runOps [Op.selectAdventureSkill cexSkillLightning cexEnemyOgre 0 0 0,
             Op.selectAdventureSkill cexSkillDodge cexEnemyOgre 0 0 0,
             Op.attack false none]
        (createInitialGameState 0 [] [])).adventureSkills.skillEffects.dodgeUsed = true ∧
    (runOps [Op.selectAdventureSkill cexSkillLightning cexEnemyOgre 0 0 0,
             Op.selectAdventureSkill cexSkillDodge cexEnemyOgre 0 0 0,
             Op.attack false none, Op.attack false none]
        (createInitialGameState 0 [] [])).playerStats.hp = 78 ∧
    (100 : ℚ) - max 1 (cexEnemyOgre.atk - 10) = 80 ∧
    (78 : ℚ) ≠ 80 := by
  refine ⟨?_, ?_, ?_, ?_, ?_, by norm_num⟩ <;>
    norm_num [cexSkillLightning, cexSkillDodge, cexEnemyOgre, max_def, beq_iff_eq]

/-- Witness for C5 (amended): in a combat started by selecting dodge from the
initial state (lightning chain inactive), the first miss is free and consumes
the dodge; from the dodged state a second miss removes exactly
max(1, 30 - 10) = 20 hp. -/
theorem C5_dodge_behavior_witness :
    (attack false none
        (selectAdventureSkill cexSkillDodge cexEnemyOgre 0 0 0
          (createInitialGameState 0 [] []))).playerStats.hp
      = (selectAdventureSkill cexSkillDodge cexEnemyOgre 0 0 0
          (createInitialGameState 0 [] [])).playerStats.hp ∧
    (attack false none
        (selectAdventureSkill cexSkillDodge cexEnemyOgre 0 0 0
          (createInitialGameState 0 [] []))).adventureSkills.skillEffects.dodgeUsed
      = true ∧
    (attack false none
        (attack false none
          (selectAdventureSkill cexSkillDodge cexEnemyOgre 0 0 0
            (createInitialGameState 0 [] [])))).playerStats.hp
      = (attack false none
          (selectAdventureSkill cexSkillDodge cexEnemyOgre 0 0 0
            (createInitialGameState 0 [] []))).playerStats.hp
        - max 1 (cexEnemyOgre.atk
          - (attack false none
              (selectAdventureSkill cexSkillDodge cexEnemyOgre 0 0 0
                (createInitialGameState 0 [] []))).playerStats.«def») := by
  have h1 := C5_dodge_behavior none cexEnemyOgre
    (selectAdventureSkill cexSkillDodge cexEnemyOgre 0 0 0
      (createInitialGameState 0 [] [])) rfl rfl
    (by norm_num [cexEnemyOgre])
  obtain ⟨hfirst, -⟩ := h1
  obtain ⟨ha, hb⟩ := hfirst rfl (by norm_num [cexSkillDodge, cexEnemyOgre])
  have h2 := C5_dodge_behavior none cexEnemyOgre
    (attack false none
      (selectAdventureSkill cexSkillDodge cexEnemyOgre 0 0 0
        (createInitialGameState 0 [] []))) (by norm_num [cexSkillDodge, cexEnemyOgre])
    (by norm_num [cexSkillDodge, cexEnemyOgre])
    (by norm_num [cexEnemyOgre])
  obtain ⟨-, hsecond⟩ := h2
  have hc := hsecond (by norm_num [cexSkillDodge, cexEnemyOgre])
    (by norm_num [cexSkillDodge, cexEnemyOgre])
    (by norm_num [cexSkillDodge, cexEnemyOgre, max_def])
  exact ⟨ha, hb, hc⟩

/-- A ramp skill card (concrete instance for evaluation). -/
def cexSkillRamp : AdventureSkill :=
  { id := "ramp", name := "Ramp"
    description := "A random stat is doubled but another is reduced by 40%"
    «type» := .ramp }

/-- C6 counterexample: a single valid ramp selection whose random samples
pick hp as the doubled stat (0.33 ≤ 0.5, 0.5 ≤ 0.7) doubles hp to 200 while
`maxHp` stays 100 — `hp ≤ maxHp` is violated in a reachable state. -/
theorem C6_counterexample :
    Op.Valid (Op.selectAdventureSkill cexSkillRamp cexEnemyOgre 0.5 0.7 0) ∧
    (runOps [Op.selectAdventureSkill cexSkillRamp cexEnemyOgre 0.5 0.7 0]
        (createInitialGameState 0 [] [])).playerStats.hp = 200 ∧
    (runOps [Op.selectAdventureSkill cexSkillRamp cexEnemyOgre 0.5 0.7 0]
        (createInitialGameState 0 [] [])).playerStats.maxHp = 100 ∧
    ¬((200 : ℚ) ≤ 100) := by
  refine ⟨?_, ?_, ?_, by norm_num⟩ <;> norm_num [cexSkillRamp, cexEnemyOgre]

/-- Witness for C6 (amended): the hp bound holds along a concrete operation
sequence containing no hp-doubling ramp. -/
theorem C6_hp_le_maxHp_witness :
    0 ≤ (runOps [Op.mineGem true, Op.attack true none]
        (createInitialGameState 0 [] [])).playerStats.hp ∧
    (runOps [Op.mineGem true, Op.attack true none]
        (createInitialGameState 0 [] [])).playerStats.hp
      ≤ (runOps [Op.mineGem true, Op.attack true none]
        (createInitialGameState 0 [] [])).playerStats.maxHp :=
  C6_hp_le_maxHp [Op.mineGem true, Op.attack true none] 0 [] []
    (by
      intro op hop
      simp only [List.mem_cons, List.not_mem_nil, or_false] at hop
      rcases hop with rfl | rfl
      · trivial
      · trivial)

/-- A concrete owned weapon for the upgrade witness. -/
def wSword : Weapon :=
  { id := "sword1", name := "Sword", rarity := "common"
    level := 1, upgradeCost := 10, sellPrice := 5 }

/-- A state owning that weapon with enough gems to upgrade it. -/
def wStateForge : GameState :=
  { createInitialGameState 0 [] [] with
    gems := 100
    inventory := { (createInitialGameState 0 [] []).inventory with weapons := [wSword] } }

/-- Witness for C7: upgrading the concrete weapon once takes its cost from 10
to floor(10 * 1.5) = 15 and its level from 1 to 2. -/
theorem C7_upgrade_cost_scaling_witness :
    getWeapon (upgradeWeapon "sword1" wStateForge) "sword1"
      = some { id := "sword1", name := "Sword", rarity := "common"
               level := 2, upgradeCost := 15, sellPrice := 5 } := by
  have h := C7_upgrade_cost_scaling.1 wStateForge "sword1" wSword rfl
    (by show (10 : ℚ) ≤ 100; norm_num)
  rw [h]
  norm_num [wSword, costStep, Weapon.mk.injEq]

/-- A concrete snapshot missing most fields, in particular missing
`adventureSkills`. -/
def wSnapshot : GameStateSnapshot :=
  { coins := some 7, gems := none, shinyGems := none, zone := none
    playerStats := none, inventory := none, currentEnemy := none, inCombat := none
    combatLog := none, research := none, isPremium := none, achievements := none
    collectionBook := none, knowledgeStreak := none, gameMode := none
    statistics := none, cheats := none, mining := none, yojefMarket := none
    playerTags := none, dailyRewards := none, progression := none
    offlineProgress := none, gardenOfGrowth := none, settings := none
    hasUsedRevival := some true, skills := none, adventureSkills := none }

/-- Witness for C9: hydrating the concrete snapshot yields the default
adventure-skill state, the persisted coins value 7 and the persisted
`hasUsedRevival` flag. -/
theorem C9_hydration_witness :
    (loadGameState wSnapshot 0 [] []).adventureSkills = emptyAdventureSkills ∧
    (loadGameState wSnapshot 0 [] []).coins = 7 ∧
    (loadGameState wSnapshot 0 [] []).hasUsedRevival = true := by
  obtain ⟨hA, hC, -, -, -, -, -, -, -, -, -, -, -, -, -, -, -, -, -, -, -, -, -, -,
    -, -, hR, -, -, -, -, -, -, -, -, -, -, -, -, -, -, -, -, -, -⟩ :=
    C9_hydration wSnapshot 0 [] []
  exact ⟨hA rfl, hC 7 rfl, hR true rfl⟩

/-- A second concrete weapon, equipped, for the discard witness. -/
def wAxe : Weapon :=
  { id := "axe1", name := "Axe", rarity := "rare"
    level := 1, upgradeCost := 20, sellPrice := 8 }

/-- A state owning and equipping that weapon. -/
def wStateEquipped : GameState :=
  { createInitialGameState 0 [] [] with
    inventory := { (createInitialGameState 0 [] []).inventory with
      weapons := [wAxe]
      currentWeapon := some wAxe } }

/-- Witness for C10: discarding the equipped weapon keeps the dangling
`currentWeapon` reference, the guarded `sellWeapon` refuses to sell it, and
`bulkSell` keeps it in the owned list. -/
theorem C10_unguarded_discard_witness :
    (discardItem wAxe.id true wStateEquipped).inventory.currentWeapon = some wAxe ∧
    sellWeapon "axe1" wStateEquipped = wStateEquipped ∧
    wAxe ∈ (bulkSell ["axe1"] true wStateEquipped).inventory.weapons := by
  obtain ⟨h1, -, -, h4, -, h6⟩ := C10_unguarded_discard_and_sellRelic
  refine ⟨(h1 wStateEquipped wAxe rfl).2, ?_, ?_⟩
  · exact h4 wStateEquipped "axe1" rfl
  · exact h6 wStateEquipped ["axe1"] wAxe rfl (by simp [wStateEquipped])

end Hugoland
